import Mathlib

/-!
# actsvg display layer: surfaces, portals, volumes, detectors

A shallow embedding of `actsvg/display/geometry.hpp`.

* Scalars are an abstract type with the operations the display code uses
  (class `Scalar`); no algebraic law of floating point arithmetic is assumed
  apart from the two recorded in the class.
* The primitive drawing layer, the view projector and the helpers of
  `actsvg/core.hpp` are collaborators of the display code: they are taken as
  parameters (structure `core`, structure `view`).
* `std::sort` is a parameter of `display.detector`, constrained by the contract
  of the C++ standard (`std_sort_contract`); `libstdcxx.sort` is the
  implementation of the GNU C++ library.
* `std::map<std::string, T>` is a key-sorted association list (`std_map`).
-/

namespace actsvg

/-! ## Scalars -/

/-- The operations of the floating point type `scalar` used by the display
code.  `nonzero` is the contextual conversion to `bool`, `lt` is `<`, `le` is
`<=`.  The two laws hold for every IEEE value, NaN included: `a <= b` excludes
`b < a`, and `0.` converts to `false`. -/
class Scalar (α : Type) where
  ofNat : Nat → α
  add : α → α → α
  sub : α → α → α
  mul : α → α → α
  div : α → α → α
  neg : α → α
  abs : α → α
  cos : α → α
  sin : α → α
  tan : α → α
  atan : α → α
  atan2 : α → α → α
  exp : α → α
  M_PI : α
  epsilon : α
  lt : α → α → Bool
  le : α → α → Bool
  nonzero : α → Bool
  lt_false_of_le : ∀ a b, le a b = true → lt b a = false
  nonzero_zero : nonzero (ofNat 0) = false

/-- A 2D point (`point2`). -/
abbrev point2 (α : Type) : Type := α × α

/-- A 3D point (`point3`). -/
abbrev point3 (α : Type) : Type := α × α × α

/-- The point `{0., 0.}`. -/
def origin2 {α : Type} [Scalar α] : point2 α := (Scalar.ofNat 0, Scalar.ofNat 0)

/-! ## `std::map<std::string, T>` -/

/-- The order of `std::string`: lexicographic on the characters. -/
def string_less (a b : String) : Bool := decide (a.toList < b.toList)

/-- A `std::map<std::string, T>`: the entries in iteration order. -/
abbrev std_map (β : Type) : Type := List (String × β)

/-- The statement `m[k] = v` on a `std::map`: insert at the place of the key
order, or overwrite the entry of an equal key. -/
def std_map.assign {β : Type} : std_map β → String → β → std_map β
  | [], k, v => [(k, v)]
  | (k', v') :: m, k, v =>
    if string_less k k' then (k, v) :: (k', v') :: m
    else if string_less k' k then (k', v') :: std_map.assign m k v
    else (k, v) :: m

/-- The lookup `m.find(k)` on a `std::map`. -/
def std_map.find {β : Type} : std_map β → String → Option β
  | [], _ => none
  | (k', v') :: m, k =>
    if string_less k k' then none
    else if string_less k' k then std_map.find m k
    else some v'

/-- The keys of a map, in iteration order. -/
def std_map.keys {β : Type} (m : std_map β) : List String := m.map Prod.fst

/-- The invariant of a `std::map`: the keys are strictly ascending. -/
def std_map.ordered {β : Type} (m : std_map β) : Prop :=
  (std_map.keys m).Pairwise (fun a b => string_less a b = true)

/-! ## Styles, transforms and scene objects -/

namespace style

/-- Modelled from the spec: `style::fill` (declared in `actsvg/core.hpp`), an
uninterpreted style value with the `_sterile` flag the display code sets. -/
structure fill (σ : Type) where
  _fc : σ
  _sterile : Bool

/-- Modelled from the spec: `style::stroke` (declared in `actsvg/core.hpp`),
an uninterpreted style value with the `_sterile` flag the display code sets. -/
structure stroke (σ : Type) where
  _sc : σ
  _sterile : Bool

/-- Modelled from the spec: `style::marker` (declared in `actsvg/core.hpp`),
an uninterpreted arrow head style. -/
structure marker (σ : Type) where
  _type : σ

/-- Modelled from the spec: `style::transform` (declared in
`actsvg/core.hpp`): translation, rotation and scale. -/
structure transform (α : Type) where
  _tr : point2 α
  _rot : α × α × α
  _scale : point2 α

/-- The constructor `style::fill{s}` / `style::fill(bool)`. -/
def fill.of_sterile {σ : Type} [Inhabited σ] (s : Bool) : fill σ := ⟨default, s⟩

/-- The constructor `style::stroke{s}`. -/
def stroke.of_sterile {σ : Type} [Inhabited σ] (s : Bool) : stroke σ := ⟨default, s⟩

/-- The default transform `style::transform{}`: no translation, no rotation,
unit scale. -/
def transform.identity {α : Type} [Scalar α] : transform α :=
  ⟨(Scalar.ofNat 0, Scalar.ofNat 0),
   (Scalar.ofNat 0, Scalar.ofNat 0, Scalar.ofNat 0),
   (Scalar.ofNat 1, Scalar.ofNat 1)⟩

end style

namespace svg

/-- Modelled from the spec: `svg::object` (declared in `actsvg/core.hpp`), the
scene object: tag, id, fill, stroke, transform, attribute map, ordered
children and the list of definitions. -/
structure object (α σ : Type) where
  _tag : String
  _id : String
  _fill : style.fill σ
  _stroke : style.stroke σ
  _transform : style.transform α
  _attribute_map : std_map String
  _sub_objects : List (object α σ)
  _definitions : List (object α σ)

/-- A default constructed `svg::object`. -/
def object.empty {α σ : Type} [Scalar α] [Inhabited σ] : object α σ :=
  { _tag := "", _id := "", _fill := style.fill.of_sterile false,
    _stroke := style.stroke.of_sterile false, _transform := style.transform.identity,
    _attribute_map := [], _sub_objects := [], _definitions := [] }

/-- Modelled from the spec: `svg::object::add_object` (declared in
`actsvg/core.hpp`) appends a child to the ordered children. -/
def object.add_object {α σ : Type} (o : object α σ) (c : object α σ) : object α σ :=
  { o with _sub_objects := o._sub_objects ++ [c] }

end svg

/-! ## The proto geometry -/

namespace proto

/-- Modelled from the spec: the surface kinds `{disc, cylinder, generic}` of
`proto::surface::type` (declared in `actsvg/proto/surface.hpp`); every kind
other than disc and cylinder is drawn from its vertices. -/
inductive surface_type where
  | e_disc
  | e_cylinder
  | e_polygon
  deriving DecidableEq, Repr

/-- Modelled from the spec: the boolean operations `{none, subtraction}` of
`proto::surface::boolean` (declared in `actsvg/proto/surface.hpp`). -/
inductive boolean where
  | e_none
  | e_subtraction
  deriving DecidableEq, Repr

/-- Modelled from the spec: `proto::surface` (declared in
`actsvg/proto/surface.hpp`). -/
structure surface (α σ : Type) where
  _name : String
  _type : surface_type
  _radii : α × α
  _opening : α × α
  _zparameters : α × α
  _vertices : List (point3 α)
  _boolean_surface : List (surface α σ)
  _boolean_operation : boolean
  _template_object : svg.object α σ
  _fill : style.fill σ
  _stroke : style.stroke σ
  _transform : style.transform α

/-- Modelled from the spec: `proto::portal::link` (declared in
`actsvg/proto/portal.hpp`). -/
structure link (α σ : Type) where
  _start : point3 α
  _end : point3 α
  _stroke : style.stroke σ
  _start_marker : style.marker σ
  _end_marker : style.marker σ

/-- Modelled from the spec: `proto::portal` (declared in
`actsvg/proto/portal.hpp`). -/
structure portal (α σ : Type) where
  _name : String
  _surface : surface α σ
  _volume_links : List (link α σ)

/-- Modelled from the spec: the volume kinds of `proto::volume::type`
(declared in `actsvg/proto/volume.hpp`). -/
inductive volume_type where
  | e_cylinder
  | e_other
  deriving DecidableEq, Repr

/-- Modelled from the spec: `proto::volume` (declared in
`actsvg/proto/volume.hpp`). -/
structure volume (α σ : Type) where
  _type : volume_type
  _name : String
  _depth_level : Nat
  _vertices : List (point3 α)
  _bound_values : List α
  _fill : style.fill σ
  _stroke : style.stroke σ
  _transform : style.transform α
  _portals : List (portal α σ)

/-- Modelled from the spec: `proto::detector` (declared in
`actsvg/proto/detector.hpp`). -/
structure detector (α σ : Type) where
  _name : String
  _volumes : List (volume α σ)

end proto

/-! ## Collaborators -/

/-- The views: `views::x_y`, `views::z_r`, or any other view type. -/
inductive view_kind where
  | x_y
  | z_r
  | other
  deriving DecidableEq, Repr

/-- A view: its type (tested by `std::is_same_v`) and its call operator, which
projects a sequence of 3D points. -/
structure view (α : Type) where
  kind : view_kind
  call : List (point3 α) → List (point2 α)

/-- The functions of `actsvg/core.hpp` the display code calls: the drawing
primitives of `draw::`, `svg::object::is_defined`, `utils::id_to_url`,
`generators::sector_contour`, and the `_type` of a default constructed
`proto::surface`. -/
structure core (α σ : Type) where
  circle : String → point2 α → α → style.fill σ → style.stroke σ →
    style.transform α → svg.object α σ
  arc : String → α → point2 α → point2 α → style.fill σ → style.stroke σ →
    style.transform α → svg.object α σ
  line : String → point2 α → point2 α → style.stroke σ → style.transform α →
    svg.object α σ
  polygon : String → List (point2 α) → style.fill σ → style.stroke σ →
    style.transform α → svg.object α σ
  arrow : String → point2 α → point2 α → style.stroke σ → style.marker σ →
    style.marker σ → svg.object α σ
  from_template : String → svg.object α σ → style.fill σ → style.stroke σ →
    style.transform α → svg.object α σ
  is_defined : svg.object α σ → Bool
  id_to_url : String → String
  sector_contour : α → α → α → α → List (point2 α)
  surface_default_type : proto.surface_type

namespace display

open svg proto style

variable {α σ : Type} [Scalar α] [Inhabited σ]

/-- The test `std::abs((opening[1] - opening[0]) - 2 * M_PI) >
5 * std::numeric_limits<scalar>::epsilon()`: the opening is a strict sub-arc. -/
def sub_arc (opening : α × α) : Bool :=
  Scalar.lt (Scalar.mul (Scalar.ofNat 5) Scalar.epsilon)
    (Scalar.abs (Scalar.sub (Scalar.sub opening.2 opening.1)
      (Scalar.mul (Scalar.ofNat 2) Scalar.M_PI)))

/-- The statements applied to a rendered mask child:
`o._fill = style::fill{true}; o._stroke = style::stroke{true};
o._attribute_map["fill"] = colour`. -/
def mask_child (o : object α σ) (colour : String) : object α σ :=
  { o with _fill := fill.of_sterile true, _stroke := stroke.of_sterile true,
           _attribute_map := std_map.assign o._attribute_map "fill" colour }

/-- The mask object: a default object with sterile fill, the given stroke, the
mask id and the tag `mask`, to which the outer and then the inner child are
added. -/
def mask_object (mask_id : String) (st : stroke σ) (outer_mask inner_mask : object α σ) :
    object α σ :=
  (({ (object.empty : object α σ) with
        _fill := fill.of_sterile true, _stroke := st, _id := mask_id, _tag := "mask" }
    ).add_object outer_mask).add_object inner_mask

/-- The statements `s._definitions.push_back(mask);
s._attribute_map["mask"] = utils::id_to_url(mask_id)`. -/
def attach_mask (c : core α σ) (s mask : object α σ) (mask_id : String) : object α σ :=
  { s with _definitions := s._definitions ++ [mask],
           _attribute_map := std_map.assign s._attribute_map "mask" (c.id_to_url mask_id) }

/-- The transform of the template branch: no translation and rotation when
drawn as template, unit scale unless drawn at scale. -/
def template_transform (s_ : proto.surface α σ) (sc_ dt_ : Bool) : transform α :=
  let draw_transform := s_._transform
  let draw_transform :=
    if dt_ then
      { draw_transform with
          _tr := (Scalar.ofNat 0, Scalar.ofNat 0),
          _rot := (Scalar.ofNat 0, Scalar.ofNat 0, Scalar.ofNat 0) }
    else draw_transform
  if !sc_ then { draw_transform with _scale := (Scalar.ofNat 1, Scalar.ofNat 1) }
  else draw_transform

/-- The transform of the shape branches: `fs_ ? style::transform{} :
s_._transform`, with the scale of the surface. -/
def shape_transform (s_ : proto.surface α σ) (fs_ : Bool) : transform α :=
  let draw_transform := if fs_ then transform.identity else s_._transform
  { draw_transform with _scale := s_._transform._scale }

set_option linter.unusedVariables false in
/-- The function `display::surface(id_, s_, v_, _b, fs_, sc_, dt_)`. -/
def surface (c : core α σ) (id_ : String) (s_ : proto.surface α σ) (v_ : view α)
    (_b fs_ sc_ dt_ : Bool) : object α σ :=
  if c.is_defined s_._template_object then
    c.from_template id_ s_._template_object s_._fill s_._stroke (template_transform s_ sc_ dt_)
  else
    let draw_transform := shape_transform s_ fs_
    let s : object α σ :=
      if s_._type = surface_type.e_disc then
        let s : object α σ := object.empty
        let s :=
          if v_.kind = view_kind.x_y then
            if sub_arc s_._opening then
              c.polygon id_
                (c.sector_contour s_._radii.1 s_._radii.2 s_._opening.1 s_._opening.2)
                s_._fill s_._stroke draw_transform
            else
              let s := c.circle id_ origin2 s_._radii.2 s_._fill s_._stroke draw_transform
              if hr : Scalar.nonzero s_._radii.1 = true then
                let mask_id := id_ ++ "_mask"
                let s_c_ := { s_ with _radii := (Scalar.ofNat 0, s_._radii.2) }
                let outer_mask := mask_child
                  (surface c (id_ ++ "_mask_surface_outer") s_c_ v_ false false false false)
                  "white"
                let s_c_ := { s_c_ with _radii := (Scalar.ofNat 0, s_._radii.1) }
                let inner_mask := mask_child
                  (surface c (id_ ++ "_mask_surface_inner") s_c_ v_ false false false false)
                  "black"
                let mask := mask_object mask_id (stroke.of_sterile true) outer_mask inner_mask
                attach_mask c s mask mask_id
              else s
          else s
        if v_.kind = view_kind.z_r then
          let zpos := s_._zparameters.1
          c.line id_ (zpos, s_._radii.1) (zpos, s_._radii.2) s_._stroke draw_transform
        else s
      else if s_._type = surface_type.e_cylinder then
        let s : object α σ := object.empty
        let s :=
          if v_.kind = view_kind.x_y then
            if sub_arc s_._opening then
              let r := s_._radii.2
              let start : point2 α :=
                (Scalar.mul r (Scalar.cos s_._opening.1), Scalar.mul r s_._opening.1)
              let end_ : point2 α :=
                (Scalar.mul r (Scalar.cos s_._opening.2), Scalar.mul r s_._opening.2)
              c.arc id_ r start end_ (fill.of_sterile false) s_._stroke draw_transform
            else
              c.circle id_ origin2 s_._radii.2 (fill.of_sterile false) s_._stroke
                draw_transform
          else s
        if v_.kind = view_kind.z_r then
          let zpos := s_._zparameters.1
          let zhalf := s_._zparameters.2
          c.line id_ (Scalar.sub zpos zhalf, s_._radii.2) (Scalar.add zpos zhalf, s_._radii.2)
            s_._stroke draw_transform
        else s
      else
        c.polygon id_ (v_.call s_._vertices) s_._fill s_._stroke draw_transform
    if hb : _b = true then
      if v_.kind = view_kind.x_y then
        match hbs : s_._boolean_surface with
        | [b0] =>
          if s_._boolean_operation = boolean.e_subtraction then
            let mask_id := id_ ++ "_mask"
            let outer_mask := mask_child
              (surface c (id_ ++ "_mask_surface_outer") s_ v_ false false false false)
              "white"
            let inner_mask := mask_child
              (surface c (id_ ++ "_mask_surface_inner") b0 v_ true false false false)
              "black"
            let mask := mask_object mask_id s_._stroke outer_mask inner_mask
            attach_mask c s mask mask_id
          else s
        | _ => s
      else s
    else s
termination_by
  4 * sizeOf s_._boolean_surface + 2 * _b.toNat + (Scalar.nonzero s_._radii.1).toNat
decreasing_by
  all_goals simp_wf
  · simp only [Scalar.nonzero_zero, hr, Bool.toNat_false, Bool.toNat_true]
    omega
  · simp only [Scalar.nonzero_zero, hr, Bool.toNat_false, Bool.toNat_true]
    omega
  · simp only [hb, Bool.toNat_false, Bool.toNat_true]
    omega
  · have h1 : sizeOf b0._boolean_surface < sizeOf b0 := by
      cases b0
      simp
      omega
    have h2 : sizeOf s_._boolean_surface = 1 + sizeOf b0 + 1 := by
      rw [hbs]
      simp
    have h3 : (Scalar.nonzero b0._radii.1).toNat ≤ 1 := Bool.toNat_le _
    omega

/-- The function `display::portal_link(id_, p_, link_, v_)`. -/
def portal_link (c : core α σ) (id_ : String) (_p_ : proto.portal α σ) (link_ : proto.link α σ)
    (v_ : view α) : object α σ :=
  let l : object α σ := { (object.empty : object α σ) with _tag := "g", _id := id_ }
  let start_end := v_.call [link_._start, link_._end]
  l.add_object
    (c.arrow (id_ ++ "_arrow") (start_end.getD 0 origin2) (start_end.getD 1 origin2)
      link_._stroke link_._start_marker link_._end_marker)

/-- A default constructed group with the given id and sterile fill and stroke:
`o._tag = "g"; o._id = id_; o._fill._sterile = true; o._stroke._sterile = true`. -/
def sterile_group (id_ : String) : object α σ :=
  let o : object α σ := object.empty
  { o with _tag := "g", _id := id_,
           _fill := { o._fill with _sterile := true },
           _stroke := { o._stroke with _sterile := true } }

/-- The function `display::portal(id_, p_, v_)`. -/
def portal (c : core α σ) (id_ : String) (p_ : proto.portal α σ) (v_ : view α) : object α σ :=
  let p : object α σ := sterile_group id_
  let p := p.add_object (surface c (id_ ++ "_surface") p_._surface v_ true false false false)
  p_._volume_links.enum.foldl
    (fun p ilvl =>
      p.add_object
        (portal_link c (id_ ++ "_volume_link_" ++ toString ilvl.1) p_ ilvl.2 v_))
    p

/-- A default constructed `proto::surface`; only its `_type` is left to the
declaration in `actsvg/proto/surface.hpp`. -/
def default_surface (c : core α σ) : proto.surface α σ :=
  { _name := "", _type := c.surface_default_type,
    _radii := (Scalar.ofNat 0, Scalar.ofNat 0),
    _opening := (Scalar.neg Scalar.M_PI, Scalar.M_PI),
    _zparameters := (Scalar.ofNat 0, Scalar.ofNat 0),
    _vertices := [], _boolean_surface := [], _boolean_operation := boolean.e_none,
    _template_object := object.empty, _fill := fill.of_sterile false,
    _stroke := stroke.of_sterile false, _transform := transform.identity }

/-- The function `display::volume(id_, dv_, v_, p_)`. -/
def volume (c : core α σ) (id_ : String) (dv_ : proto.volume α σ) (v_ : view α) (p_ : Bool) :
    object α σ :=
  let v : object α σ := sterile_group id_
  let v :=
    if ¬ dv_._vertices.isEmpty then
      let view_vertices := v_.call dv_._vertices
      let pv := c.polygon (id_ ++ "_volume") view_vertices dv_._fill dv_._stroke
        dv_._transform
      v.add_object pv
    else
      match dv_._type, dv_._bound_values with
      | volume_type.e_cylinder, ri :: ro :: zp :: zh :: ps :: ap :: _ =>
        let v :=
          if v_.kind = view_kind.x_y then
            let s : proto.surface α σ := default_surface c
            let s := { s with _name := id_ ++ "_volume" }
            let s := { s with _radii := (ri, ro) }
            let s := { s with _opening := (Scalar.sub ap ps, Scalar.add ap ps) }
            let s := { s with _zparameters := (zp, zh) }
            let s := { s with _fill := dv_._fill }
            let s := { s with _stroke := dv_._stroke }
            v.add_object (surface c s._name s v_ true false false false)
          else v
        if v_.kind = view_kind.z_r then
          let view_vertices : List (point2 α) :=
            [(Scalar.sub zp zh, ri), (Scalar.add zp zh, ri),
             (Scalar.add zp zh, ro), (Scalar.sub zp zh, ro)]
          let pv := c.polygon (id_ ++ "_volume") view_vertices dv_._fill dv_._stroke
            dv_._transform
          v.add_object pv
        else v
      | _, _ => v
  if p_ then
    dv_._portals.enum.foldl
      (fun v ipp => v.add_object (portal c (id_ ++ "_portal_" ++ toString ipp.1) ipp.2 v_))
      v
  else v

/-- The comparison of the sort in `display::detector`:
`a_._depth_level < b_._depth_level`. -/
def depth_less (a_ b_ : proto.volume α σ) : Bool := decide (a_._depth_level < b_._depth_level)

/-- The portals collected by `display::detector` from the (sorted) volumes:
`portals[p._name] = p` for every portal of every volume, in order. -/
def collect_portals (volumes : List (proto.volume α σ)) : std_map (proto.portal α σ) :=
  volumes.foldl
    (fun portals v => v._portals.foldl (fun portals p => std_map.assign portals p._name p)
      portals)
    []

/-- The function `display::detector(id_, d_, v_)`; `std_sort comp xs` is the
result of `std::sort(xs.begin(), xs.end(), comp)` on a copy of `xs`. -/
def detector (c : core α σ)
    (std_sort : (proto.volume α σ → proto.volume α σ → Bool) → List (proto.volume α σ) → List (proto.volume α σ))
    (id_ : String) (d_ : proto.detector α σ) (v_ : view α) : object α σ :=
  let d : object α σ := sterile_group id_
  let volumes := std_sort depth_less d_._volumes
  let d := volumes.foldl (fun d v => d.add_object (volume c v._name v v_ false)) d
  let portals := collect_portals volumes
  portals.foldl (fun d np => d.add_object (portal c np.1 np.2 v_)) d

/-- The contract of `std::sort` for a comparison `comp`: the result is a
permutation of the input in which no element compares less than an earlier
one.  The relative order of equivalent elements is not part of the contract. -/
def std_sort_contract {β : Type} (std_sort : (β → β → Bool) → List β → List β)
    (comp : β → β → Bool) : Prop :=
  ∀ xs : List β, (std_sort comp xs).Perm xs ∧
    (std_sort comp xs).Pairwise (fun a b => comp b a = false)


/-- The nesting depth of `_boolean_surface`: the length of the chain of
single boolean subsurfaces below a surface. -/
def boolean_nesting : proto.surface α σ → Nat
  | ⟨_, _, _, _, _, _, [b0], _, _, _, _, _⟩ => boolean_nesting b0 + 1
  | _ => 0

/-- The function `display::surface` run with a bound on the depth of the call
stack: `surface_fuel c n ...` is the result of the call when no chain of
nested calls of `surface` is longer than `n`, and `none` otherwise. -/
def surface_fuel (c : core α σ) :
    Nat → String → proto.surface α σ → view α → Bool → Bool → Bool → Bool →
      Option (object α σ)
  | 0, _, _, _, _, _, _, _ => none
  | fuel + 1, id_, s_, v_, _b, fs_, sc_, dt_ =>
    if c.is_defined s_._template_object then
      some (c.from_template id_ s_._template_object s_._fill s_._stroke
        (template_transform s_ sc_ dt_))
    else
      let draw_transform := shape_transform s_ fs_
      let s : Option (object α σ) :=
        if s_._type = surface_type.e_disc then
          let s : Option (object α σ) := some object.empty
          let s :=
            if v_.kind = view_kind.x_y then
              if sub_arc s_._opening then
                some (c.polygon id_
                  (c.sector_contour s_._radii.1 s_._radii.2 s_._opening.1 s_._opening.2)
                  s_._fill s_._stroke draw_transform)
              else
                let s := c.circle id_ origin2 s_._radii.2 s_._fill s_._stroke draw_transform
                if Scalar.nonzero s_._radii.1 = true then
                  let mask_id := id_ ++ "_mask"
                  let s_c_ := { s_ with _radii := (Scalar.ofNat 0, s_._radii.2) }
                  match surface_fuel c fuel (id_ ++ "_mask_surface_outer") s_c_ v_
                      false false false false with
                  | none => none
                  | some outer =>
                    let outer_mask := mask_child outer "white"
                    let s_c_ := { s_c_ with _radii := (Scalar.ofNat 0, s_._radii.1) }
                    match surface_fuel c fuel (id_ ++ "_mask_surface_inner") s_c_ v_
                        false false false false with
                    | none => none
                    | some inner =>
                      let inner_mask := mask_child inner "black"
                      let mask :=
                        mask_object mask_id (stroke.of_sterile true) outer_mask inner_mask
                      some (attach_mask c s mask mask_id)
                else some s
            else s
          if v_.kind = view_kind.z_r then
            let zpos := s_._zparameters.1
            some (c.line id_ (zpos, s_._radii.1) (zpos, s_._radii.2) s_._stroke draw_transform)
          else s
        else if s_._type = surface_type.e_cylinder then
          let s : object α σ := object.empty
          let s :=
            if v_.kind = view_kind.x_y then
              if sub_arc s_._opening then
                let r := s_._radii.2
                let start : point2 α :=
                  (Scalar.mul r (Scalar.cos s_._opening.1), Scalar.mul r s_._opening.1)
                let end_ : point2 α :=
                  (Scalar.mul r (Scalar.cos s_._opening.2), Scalar.mul r s_._opening.2)
                c.arc id_ r start end_ (fill.of_sterile false) s_._stroke draw_transform
              else
                c.circle id_ origin2 s_._radii.2 (fill.of_sterile false) s_._stroke
                  draw_transform
            else s
          if v_.kind = view_kind.z_r then
            let zpos := s_._zparameters.1
            let zhalf := s_._zparameters.2
            some (c.line id_ (Scalar.sub zpos zhalf, s_._radii.2)
              (Scalar.add zpos zhalf, s_._radii.2) s_._stroke draw_transform)
          else some s
        else
          some (c.polygon id_ (v_.call s_._vertices) s_._fill s_._stroke draw_transform)
      match s with
      | none => none
      | some s =>
        if _b = true then
          if v_.kind = view_kind.x_y then
            match s_._boolean_surface with
            | [b0] =>
              if s_._boolean_operation = boolean.e_subtraction then
                let mask_id := id_ ++ "_mask"
                match surface_fuel c fuel (id_ ++ "_mask_surface_outer") s_ v_
                    false false false false with
                | none => none
                | some outer =>
                  let outer_mask := mask_child outer "white"
                  match surface_fuel c fuel (id_ ++ "_mask_surface_inner") b0 v_
                      true false false false with
                  | none => none
                  | some inner =>
                    let inner_mask := mask_child inner "black"
                    let mask := mask_object mask_id s_._stroke outer_mask inner_mask
                    some (attach_mask c s mask mask_id)
              else some s
            | _ => some s
          else some s
        else some s

end display


/-! ## `std::sort` as implemented in libstdc++ -/

namespace libstdcxx

variable {β : Type}

/-- The constant `_S_threshold` of `bits/stl_algo.h`. -/
def S_threshold : Nat := 16

/-- The call `comp(i, j)` on two iterators of the range `a`. -/
def comp_at (comp : β → β → Bool) (a : List β) (i j : Nat) : Bool :=
  match a[i]?, a[j]? with
  | some x, some y => comp x y
  | _, _ => false

/-- The call `std::iter_swap(i, j)`. -/
def iter_swap (a : List β) (i j : Nat) : List β :=
  match a[i]?, a[j]? with
  | some x, some y => (a.set i y).set j x
  | _, _ => a

/-- The function `std::__move_median_to_first(result, x, y, z, comp)`. -/
def move_median_to_first (comp : β → β → Bool) (a : List β) (result x y z : Nat) : List β :=
  if comp_at comp a x y then
    if comp_at comp a y z then iter_swap a result y
    else if comp_at comp a x z then iter_swap a result z
    else iter_swap a result x
  else if comp_at comp a x z then iter_swap a result x
  else if comp_at comp a y z then iter_swap a result z
  else iter_swap a result y

/-- The loop `while (comp(first, pivot)) ++first;`. -/
def scan_up (comp : β → β → Bool) (a : List β) (pivot : Nat) : Nat → Nat → Nat
  | 0, first => first
  | fuel + 1, first =>
    if comp_at comp a first pivot then scan_up comp a pivot fuel (first + 1) else first

/-- The loop `while (comp(pivot, last)) --last;`. -/
def scan_down (comp : β → β → Bool) (a : List β) (pivot : Nat) : Nat → Nat → Nat
  | 0, last => last
  | fuel + 1, last =>
    if comp_at comp a pivot last then scan_down comp a pivot fuel (last - 1) else last

/-- The function `std::__unguarded_partition(first, last, pivot, comp)`; the
first argument bounds the number of rounds of the outer loop. -/
def unguarded_partition (comp : β → β → Bool) (pivot : Nat) :
    Nat → List β → Nat → Nat → List β × Nat
  | 0, a, first, _ => (a, first)
  | fuel + 1, a, first, last =>
    let first := scan_up comp a pivot a.length first
    let last := last - 1
    let last := scan_down comp a pivot a.length last
    if first < last then
      unguarded_partition comp pivot fuel (iter_swap a first last) (first + 1) last
    else (a, first)

/-- The function `std::__unguarded_partition_pivot(first, last, comp)`. -/
def unguarded_partition_pivot (comp : β → β → Bool) (a : List β) (first last : Nat) :
    List β × Nat :=
  let mid := first + (last - first) / 2
  let a := move_median_to_first comp a first (first + 1) mid (last - 1)
  unguarded_partition comp first a.length a (first + 1) last

/-- The function `std::__push_heap(first, holeIndex, topIndex, value, comp)`. -/
def push_heap (comp : β → β → Bool) (first top : Nat) (value : β) :
    Nat → List β → Nat → List β
  | 0, a, hole => a.set (first + hole) value
  | fuel + 1, a, hole =>
    let parent := (hole - 1) / 2
    match a[first + parent]? with
    | some p =>
      if top < hole ∧ comp p value = true then
        push_heap comp first top value fuel (a.set (first + hole) p) parent
      else a.set (first + hole) value
    | none => a.set (first + hole) value

/-- The first loop of `std::__adjust_heap`: the hole moves down to the larger
child. -/
def sift_hole (comp : β → β → Bool) (first len : Nat) :
    Nat → List β → Nat → Nat → List β × Nat × Nat
  | 0, a, hole, second => (a, hole, second)
  | fuel + 1, a, hole, second =>
    if second < (len - 1) / 2 then
      let second := 2 * (second + 1)
      let second := if comp_at comp a (first + second) (first + (second - 1)) then second - 1
        else second
      match a[first + second]? with
      | some x => sift_hole comp first len fuel (a.set (first + hole) x) second second
      | none => (a, hole, second)
    else (a, hole, second)

/-- The function `std::__adjust_heap(first, holeIndex, len, value, comp)`. -/
def adjust_heap (comp : β → β → Bool) (a : List β) (first hole len : Nat) (value : β) :
    List β :=
  let top := hole
  let (a, hole, second) := sift_hole comp first len len a hole hole
  let (a, hole) :=
    if len % 2 = 0 ∧ second = (len - 2) / 2 then
      let second := 2 * (second + 1)
      match a[first + (second - 1)]? with
      | some x => (a.set (first + hole) x, second - 1)
      | none => (a, hole)
    else (a, hole)
  push_heap comp first top value len a hole

/-- The loop of `std::__make_heap(first, last, comp)`, from `parent` down to 0. -/
def make_heap_loop (comp : β → β → Bool) (first len : Nat) : Nat → List β → List β
  | 0, a =>
    match a[first]? with
    | some v => adjust_heap comp a first 0 len v
    | none => a
  | parent + 1, a =>
    match a[first + (parent + 1)]? with
    | some v => make_heap_loop comp first len parent (adjust_heap comp a first (parent + 1) len v)
    | none => a

/-- The function `std::__make_heap(first, last, comp)`. -/
def make_heap (comp : β → β → Bool) (a : List β) (first last : Nat) : List β :=
  if last - first < 2 then a
  else make_heap_loop comp first (last - first) ((last - first - 2) / 2) a

/-- The function `std::__sort_heap(first, last, comp)`: `len` counts the
elements still in the heap. -/
def sort_heap (comp : β → β → Bool) (first : Nat) : Nat → List β → List β
  | 0, a => a
  | len + 1, a =>
    if 1 < len + 1 then
      match a[first + len]?, a[first]? with
      | some value, some top =>
        sort_heap comp first len (adjust_heap comp (a.set (first + len) top) first 0 len value)
      | _, _ => a
    else a

/-- The call `std::__partial_sort(first, last, last, comp)`: heap sort of the
range. -/
def partial_sort (comp : β → β → Bool) (a : List β) (first last : Nat) : List β :=
  sort_heap comp first (last - first) (make_heap comp a first last)

/-- The function `std::__introsort_loop(first, last, depth_limit, comp)`; the
first argument bounds the number of rounds of the loop. -/
def introsort_loop (comp : β → β → Bool) : Nat → List β → Nat → Nat → Nat → List β
  | 0, a, _, _, _ => a
  | fuel + 1, a, first, last, depth_limit =>
    if S_threshold < last - first then
      if depth_limit = 0 then partial_sort comp a first last
      else
        let depth_limit := depth_limit - 1
        let cut := unguarded_partition_pivot comp a first last
        let a := introsort_loop comp fuel cut.1 cut.2 last depth_limit
        introsort_loop comp fuel a first cut.2 depth_limit
    else a

/-- The function `std::__unguarded_linear_insert(last, comp)` for the value
`val` taken from position `last`. -/
def unguarded_linear_insert (comp : β → β → Bool) (val : β) : Nat → List β → Nat → List β
  | 0, a, last => a.set last val
  | fuel + 1, a, last =>
    match last, a[last - 1]? with
    | next + 1, some x =>
      if comp val x then unguarded_linear_insert comp val fuel (a.set (next + 1) x) next
      else a.set (next + 1) val
    | _, _ => a.set last val

/-- One round of the loop of `std::__insertion_sort(first, last, comp)`, for
the iterator `i`. -/
def insertion_step (comp : β → β → Bool) (first : Nat) (a : List β) (i : Nat) : List β :=
  match a[i]? with
  | some val =>
    if comp_at comp a i first then
      a.take first ++ val :: (a.drop first).take (i - first) ++ a.drop (i + 1)
    else unguarded_linear_insert comp val a.length a i
  | none => a

/-- The function `std::__insertion_sort(first, last, comp)`. -/
def insertion_sort (comp : β → β → Bool) (a : List β) (first last : Nat) : List β :=
  if first = last then a
  else (List.range' (first + 1) (last - (first + 1))).foldl (insertion_step comp first) a

/-- The function `std::__unguarded_insertion_sort(first, last, comp)`. -/
def unguarded_insertion_sort (comp : β → β → Bool) (a : List β) (first last : Nat) : List β :=
  (List.range' first (last - first)).foldl
    (fun a i =>
      match a[i]? with
      | some val => unguarded_linear_insert comp val a.length a i
      | none => a)
    a

/-- The function `std::__final_insertion_sort(first, last, comp)`. -/
def final_insertion_sort (comp : β → β → Bool) (a : List β) (first last : Nat) : List β :=
  if S_threshold < last - first then
    unguarded_insertion_sort comp (insertion_sort comp a first (first + S_threshold))
      (first + S_threshold) last
  else insertion_sort comp a first last

/-- The loop of `std::__lg`; the first argument bounds the number of rounds. -/
def lg_loop : Nat → Nat → Nat
  | 0, _ => 0
  | fuel + 1, n => if 2 ≤ n then lg_loop fuel (n / 2) + 1 else 0

/-- The function `std::__lg(n)`: the position of the highest bit set in `n`. -/
def lg (n : Nat) : Nat := lg_loop n n

/-- The function `std::sort(first, last, comp)` on the whole of a container:
`std::__sort`, which runs `std::__introsort_loop` with the depth limit
`std::__lg(last - first) * 2` and then `std::__final_insertion_sort`. -/
def sort (comp : β → β → Bool) (xs : List β) : List β :=
  if xs.length = 0 then xs
  else
    final_insertion_sort comp
      (introsort_loop comp xs.length xs 0 xs.length (lg xs.length * 2))
      0 xs.length

end libstdcxx

/-! ## Predicates used in the statements -/

/-- A bound on the depth of the call stack of `display::surface`: two calls
above the boolean nesting depth when `draw_boolean` is set, otherwise the call
itself and, for a ring, its silhouettes. -/
def display.call_depth_bound {α σ : Type} [Scalar α] (s_ : proto.surface α σ) (b : Bool) : Nat :=
  if b = true then display.boolean_nesting s_ + 2
  else if Scalar.nonzero s_._radii.1 = true then 2 else 1



namespace display

open svg proto style

/-- An object carries no mask: its definitions list is empty and its
attribute map has no entry `mask`. -/
def no_mask {α σ : Type} (o : object α σ) : Prop :=
  o._definitions = [] ∧ std_map.find o._attribute_map "mask" = none

/-- The shape primitives of the drawing layer return objects without mask. -/
def leaf_primitives {α σ : Type} (c : core α σ) : Prop :=
  (∀ id_ p r f s t, no_mask (c.circle id_ p r f s t)) ∧
  (∀ id_ r p q f s t, no_mask (c.arc id_ r p q f s t)) ∧
  (∀ id_ p q s t, no_mask (c.line id_ p q s t)) ∧
  (∀ id_ vs f s t, no_mask (c.polygon id_ vs f s t))

end display

/-! ## A concrete environment

Rational scalars, scalars with a NaN and `double` values of the library
functions, a small drawing layer and a sorting function, on which the display
code is evaluated at concrete inputs. -/

namespace sample

open svg proto style

/-- Rational numbers as scalars, with the `double` values of `M_PI` and of the
machine epsilon.  The transcendental functions are low order series; they
stand in for the library functions on inputs where only the shape of the
result matters. -/
instance rat_scalar : Scalar ℚ where
  ofNat n := (n : ℚ)
  add a b := a + b
  sub a b := a - b
  mul a b := a * b
  div a b := a / b
  neg a := -a
  abs a := |a|
  cos x := 1 - x * x / 2
  sin x := x - x * x * x / 6
  tan x := x + x * x * x / 3
  atan x := x - x * x * x / 3
  atan2 y x := y / x - (y / x) * (y / x) * (y / x) / 3
  exp x := 1 + x + x * x / 2
  M_PI := 884279719003555 / 281474976710656
  epsilon := 1 / 4503599627370496
  lt a b := decide (a < b)
  le a b := decide (a ≤ b)
  nonzero a := decide (a ≠ 0)
  lt_false_of_le a b := by
    intro h
    simpa using h
  nonzero_zero := by simp

/-- A leaf object of the sample drawing layer. -/
def leaf (tag id_ : String) (f : fill Nat) (s : stroke Nat) (t : transform ℚ) : object ℚ Nat :=
  { _tag := tag, _id := id_, _fill := f, _stroke := s, _transform := t,
    _attribute_map := [], _sub_objects := [], _definitions := [] }

/-- A sample drawing layer: every primitive returns a leaf object carrying its
tag, id, style and transform (the geometric attributes are left out); an
object is defined when its tag is not empty. -/
def draw : core ℚ Nat where
  circle id_ _ _ f s t := leaf "circle" id_ f s t
  arc id_ _ _ _ f s t := leaf "path" id_ f s t
  line id_ _ _ s t := leaf "line" id_ (fill.of_sterile false) s t
  polygon id_ _ f s t := leaf "polygon" id_ f s t
  arrow id_ _ _ s _ _ := leaf "arrow" id_ (fill.of_sterile false) s transform.identity
  from_template id_ o f s t := { o with _id := id_, _fill := f, _stroke := s, _transform := t }
  is_defined o := decide (o._tag ≠ "")
  id_to_url id_ := "url(#" ++ id_ ++ ")"
  sector_contour ri ro phi0 phi1 :=
    [(ri * phi0, ri), (ro * phi0, ro), (ro * phi1, ro), (ri * phi1, ri)]
  surface_default_type := surface_type.e_disc

/-- The planar view on the sample scalars: `(x, y, z)` goes to `(x, y)`. -/
def xy : view ℚ := ⟨view_kind.x_y, fun ps => ps.map (fun p => (p.1, p.2.1))⟩

/-- A view of type `views::z_r` on the sample scalars, for points of the
half plane `x = 0, y >= 0`: `(0, y, z)` goes to `(z, y)`. -/
def zr : view ℚ := ⟨view_kind.z_r, fun ps => ps.map (fun p => (p.2.2, p.2.1))⟩

/-- An implementation of `std::sort`: insertion sort, which keeps equivalent
elements in input order. -/
def std_sort {β : Type} (comp : β → β → Bool) (xs : List β) : List β :=
  List.insertionSort (fun a b => comp b a = false) xs

/-- A surface drawn from (no) vertices, without template. -/
def plain_surface : proto.surface ℚ Nat :=
  { _name := "", _type := surface_type.e_polygon, _radii := (0, 0), _opening := (0, 0),
    _zparameters := (0, 0), _vertices := [], _boolean_surface := [],
    _boolean_operation := boolean.e_none, _template_object := object.empty,
    _fill := ⟨1, false⟩, _stroke := ⟨2, false⟩, _transform := transform.identity }

/-- A portal of the given name, geometry tag `k` (kept in the fill colour of
its surface) and no volume links. -/
def portal_named (name : String) (k : Nat) : proto.portal ℚ Nat :=
  { _name := name, _surface := { plain_surface with _fill := ⟨k, false⟩ }, _volume_links := [] }

/-- A volume without shape, of the given name, depth level and portals. -/
def vol (name : String) (depth : Nat) (ps : List (proto.portal ℚ Nat)) : proto.volume ℚ Nat :=
  { _type := volume_type.e_other, _name := name, _depth_level := depth, _vertices := [],
    _bound_values := [], _fill := ⟨1, false⟩, _stroke := ⟨2, false⟩,
    _transform := transform.identity, _portals := ps }

/-- A detector whose volumes have the depth levels 2, 0, 1. -/
def det_201 : proto.detector ℚ Nat :=
  ⟨"det", [vol "v2" 2 [], vol "v0" 0 [], vol "v1" 1 []]⟩

/-- A detector with 17 volumes `v0`, ..., `v16`, in this order, all of depth
level 0. -/
def det_17 : proto.detector ℚ Nat :=
  ⟨"det", (List.range 17).map (fun i => vol ("v" ++ toString i) 0 [])⟩

/-- A detector with two volumes that each list a portal named `P` (with
different geometry tags) and one more portal each. -/
def det_shared : proto.detector ℚ Nat :=
  ⟨"det", [vol "a" 0 [portal_named "P" 7, portal_named "Q" 3],
           vol "b" 1 [portal_named "A" 4, portal_named "P" 8]]⟩

/-- A full disc ring: radii `[1, 2]`, opening `[-M_PI, M_PI]`, no template and
no boolean subsurface. -/
def ring : proto.surface ℚ Nat :=
  { plain_surface with
      _type := surface_type.e_disc, _radii := (1, 2),
      _opening := (Scalar.neg Scalar.M_PI, Scalar.M_PI) }

/-- A disc sector: radii `[1, 2]`, opening `[0, 1]`. -/
def sector : proto.surface ℚ Nat :=
  { plain_surface with _type := surface_type.e_disc, _radii := (1, 2), _opening := (0, 1) }

/-- A subsurface that itself has a subtraction subsurface. -/
def nested_sub : proto.surface ℚ Nat :=
  { plain_surface with
      _boolean_surface := [plain_surface], _boolean_operation := boolean.e_subtraction }

/-- A surface with the subtraction subsurface `nested_sub`. -/
def nested : proto.surface ℚ Nat :=
  { plain_surface with
      _boolean_surface := [nested_sub], _boolean_operation := boolean.e_subtraction }

/-- A surface with a defined template object. -/
def templated : proto.surface ℚ Nat :=
  { ring with
      _template_object := leaf "g" "tmpl" ⟨5, false⟩ ⟨6, false⟩ transform.identity,
      _transform := ⟨(3, 4), (0, 0, 1), (2, 2)⟩ }

/-- A cylinder surface: outer radius 2, opening `[1, 2]`, centred at `z = 10`
with half length 5. -/
def cyl : proto.surface ℚ Nat :=
  { plain_surface with
      _type := surface_type.e_cylinder, _radii := (1, 2), _opening := (1, 2),
      _zparameters := (10, 5) }

/-- The sample drawing layer with the given arc primitive. -/
def draw_arc
    (arc : String → ℚ → point2 ℚ → point2 ℚ → fill Nat → stroke Nat → transform ℚ →
      object ℚ Nat) : core ℚ Nat :=
  { draw with arc := arc }

/-- The sample drawing layer with a default constructed `proto::surface` that
is not a disc. -/
def draw_untyped : core ℚ Nat :=
  { draw with surface_default_type := surface_type.e_polygon }

/-- A link from `(0, 0, 0)` to `(1, 2, 3)`. -/
def link_a : proto.link ℚ Nat :=
  { _start := (0, 0, 0), _end := (1, 2, 3), _stroke := ⟨9, false⟩,
    _start_marker := ⟨1⟩, _end_marker := ⟨2⟩ }

/-- A link from `(1, 2, 3)` to `(4, 5, 6)`. -/
def link_b : proto.link ℚ Nat :=
  { _start := (1, 2, 3), _end := (4, 5, 6), _stroke := ⟨9, false⟩,
    _start_marker := ⟨1⟩, _end_marker := ⟨2⟩ }

/-- A portal with two volume links. -/
def portal_links : proto.portal ℚ Nat :=
  { _name := "p", _surface := plain_surface, _volume_links := [link_a, link_b] }

/-- A full-turn cylinder volume with the bound values `[1, 2, 0, 5, M_PI, 0]`,
no vertices and one portal. -/
def vol_cyl : proto.volume ℚ Nat :=
  { vol "v" 0 [portal_named "P" 7] with
      _type := volume_type.e_cylinder,
      _bound_values := [1, 2, 0, 5, Scalar.M_PI, 0] }

/-- A cylinder volume with only five bound values, no vertices and two
portals. -/
def vol_short : proto.volume ℚ Nat :=
  { vol "v" 0 [portal_named "P" 7, portal_named "Q" 3] with
      _type := volume_type.e_cylinder, _bound_values := [1, 2, 0, 5, 3] }

/-- A cylinder volume with explicit vertices and six bound values. -/
def vol_poly : proto.volume ℚ Nat :=
  { vol_cyl with _vertices := [(0, 0, 0), (1, 0, 0), (1, 1, 0)] }

/-- The sample ring with one subtraction subsurface. -/
def ring_with_hole : proto.surface ℚ Nat :=
  { ring with
      _boolean_surface := [plain_surface], _boolean_operation := boolean.e_subtraction }

/-- The disc-kind surface with the radii, opening, z-parameters, fill and
stroke that `display::volume` takes from the bound values of `vol_cyl`. -/
def disc_of_vol_cyl : proto.surface ℚ Nat :=
  { display.default_surface draw_untyped with
      _name := "v_volume", _type := surface_type.e_disc, _radii := (1, 2),
      _opening := (Scalar.sub (0 : ℚ) Scalar.M_PI, Scalar.add (0 : ℚ) Scalar.M_PI),
      _zparameters := (0, 5), _fill := vol_cyl._fill, _stroke := vol_cyl._stroke }

/-- The sample ring with one subtraction subsurface and a defined template
object. -/
def ring_with_hole_templated : proto.surface ℚ Nat :=
  { ring_with_hole with
      _template_object := leaf "g" "tmpl" ⟨5, false⟩ ⟨6, false⟩ transform.identity }

/-- The values of a floating point scalar as far as the sample inputs need
them: NaN, or a number. -/
inductive ieee where
  | nan : ieee
  | num (q : ℚ) : ieee

/-- A binary arithmetic operation: NaN if an operand is NaN. -/
def ieee.lift2 (f : ℚ → ℚ → ℚ) : ieee → ieee → ieee
  | ieee.num a, ieee.num b => ieee.num (f a b)
  | _, _ => ieee.nan

/-- A unary arithmetic operation: NaN on NaN. -/
def ieee.lift1 (f : ℚ → ℚ) : ieee → ieee
  | ieee.num a => ieee.num (f a)
  | ieee.nan => ieee.nan

/-- A comparison: false if an operand is NaN. -/
def ieee.compare (r : ℚ → ℚ → Bool) : ieee → ieee → Bool
  | ieee.num a, ieee.num b => r a b
  | _, _ => false

/-- A library function given by its `double` values at the listed arguments;
NaN and arguments that are not listed give NaN. -/
def ieee.table (values : List (ℚ × ℚ)) : ieee → ieee
  | ieee.num a =>
    match values.find? (fun v => decide (v.1 = a)) with
    | some v => ieee.num v.2
    | none => ieee.nan
  | ieee.nan => ieee.nan

/-- Scalars with a NaN.  The comparisons and the conversion to `bool` treat
NaN as IEEE 754 does: every `<` and `<=` with a NaN operand is false, and NaN
converts to `true`.  Arithmetic on numbers is exact (no rounding and no
infinities: a quotient by zero is NaN).  `M_PI` and `epsilon` are the values of
`double`; the library functions are tables of their `double` values at the
arguments reached for `eta = 0` and `eta = 2` with `zr_ = 1000`,
`rr_ = 500`. -/
instance ieee_scalar : Scalar ieee where
  ofNat n := ieee.num (n : ℚ)
  add := ieee.lift2 (fun a b => a + b)
  sub := ieee.lift2 (fun a b => a - b)
  mul := ieee.lift2 (fun a b => a * b)
  div x y :=
    match y with
    | ieee.num b => if b = 0 then ieee.nan else ieee.lift2 (fun a b => a / b) x y
    | ieee.nan => ieee.nan
  neg := ieee.lift1 (fun a => -a)
  abs := ieee.lift1 (fun a => |a|)
  cos := ieee.table
    [(884279719003555 / 562949953421312,
        4967757600021511 / 81129638414606681695789005144064),
     (1211630387685915 / 4503599627370496, 2170797125202165 / 2251799813685248)]
  sin := ieee.table
    [(884279719003555 / 562949953421312, 1),
     (1211630387685915 / 4503599627370496, 2394133637462817 / 9007199254740992)]
  tan := ieee.table
    [(884279719003555 / 562949953421312, 16331239353195370),
     (1211630387685915 / 4503599627370496, 2483470065529171 / 9007199254740992)]
  atan := ieee.table
    [(1, 884279719003555 / 1125899906842624),
     (1218991862308979 / 9007199254740992, 1211630387685915 / 9007199254740992)]
  atan2 y x :=
    match y, x with
    | ieee.num b, ieee.num a =>
      if b = 500 ∧ a = 1000 then ieee.num (8352332796509007 / 18014398509481984)
      else ieee.nan
    | _, _ => ieee.nan
  exp := ieee.table [(0, 1), (-2, 1218991862308979 / 9007199254740992)]
  M_PI := ieee.num (884279719003555 / 281474976710656)
  epsilon := ieee.num (1 / 4503599627370496)
  lt := ieee.compare (fun a b => decide (a < b))
  le := ieee.compare (fun a b => decide (a ≤ b))
  nonzero x :=
    match x with
    | ieee.num a => decide (a ≠ 0)
    | ieee.nan => true
  lt_false_of_le a b := by
    cases a <;> cases b <;> simp [ieee.compare]
  nonzero_zero := by simp

/-- A leaf object of the sample drawing layer on the scalars with NaN. -/
def ieee_leaf (tag id_ : String) (f : fill Nat) (s : stroke Nat) (t : transform ieee) :
    object ieee Nat :=
  { _tag := tag, _id := id_, _fill := f, _stroke := s, _transform := t,
    _attribute_map := [], _sub_objects := [], _definitions := [] }

/-- The sample drawing layer on the scalars with NaN: as `draw`, every
primitive returns a leaf object carrying its tag, id, style and transform. -/
def ieee_draw : core ieee Nat where
  circle id_ _ _ f s t := ieee_leaf "circle" id_ f s t
  arc id_ _ _ _ f s t := ieee_leaf "path" id_ f s t
  line id_ _ _ s t := ieee_leaf "line" id_ (fill.of_sterile false) s t
  polygon id_ _ f s t := ieee_leaf "polygon" id_ f s t
  arrow id_ _ _ s _ _ := ieee_leaf "arrow" id_ (fill.of_sterile false) s transform.identity
  from_template id_ o f s t := { o with _id := id_, _fill := f, _stroke := s, _transform := t }
  is_defined o := decide (o._tag ≠ "")
  id_to_url id_ := "url(#" ++ id_ ++ ")"
  sector_contour ri ro phi0 phi1 :=
    [(Scalar.mul ri phi0, ri), (Scalar.mul ro phi0, ro), (Scalar.mul ro phi1, ro),
     (Scalar.mul ri phi1, ri)]
  surface_default_type := surface_type.e_disc

/-- The planar view on the scalars with NaN: `(x, y, z)` goes to `(x, y)`. -/
def ieee_xy : view ieee := ⟨view_kind.x_y, fun ps => ps.map (fun p => (p.1, p.2.1))⟩

/-- A disc with the radii `[0, 2]` whose opening is `[NaN, NaN]`, without
template and without boolean subsurface. -/
def nan_disc : proto.surface ieee Nat :=
  { _name := "", _type := surface_type.e_disc, _radii := (ieee.num 0, ieee.num 2),
    _opening := (ieee.nan, ieee.nan), _zparameters := (ieee.num 0, ieee.num 0),
    _vertices := [], _boolean_surface := [], _boolean_operation := boolean.e_none,
    _template_object := object.empty, _fill := ⟨1, false⟩, _stroke := ⟨2, false⟩,
    _transform := transform.identity }

end sample

/-! ## Facts on `std_map` -/

section std_map_facts

variable {β : Type}

theorem string_less_iff (a b : String) : string_less a b = true ↔ a < b := by
  simp [string_less, String.lt_iff_toList_lt]

theorem string_less_eq_false_iff (a b : String) : string_less a b = false ↔ b ≤ a := by
  rw [← not_lt, ← string_less_iff]
  simp

theorem string_less_irrefl (a : String) : string_less a a = false := by
  rw [string_less_eq_false_iff]

theorem eq_of_string_less_false {a b : String} (h1 : string_less a b = false)
    (h2 : string_less b a = false) : a = b :=
  le_antisymm ((string_less_eq_false_iff b a).mp h2) ((string_less_eq_false_iff a b).mp h1)

theorem std_map.find_assign_same (m : std_map β) (k : String) (v : β) :
    std_map.find (std_map.assign m k v) k = some v := by
  induction m with
  | nil => simp [std_map.assign, std_map.find, string_less_irrefl]
  | cons e m ih =>
    obtain ⟨k', v'⟩ := e
    by_cases h1 : string_less k k' = true
    · simp [std_map.assign, std_map.find, h1, string_less_irrefl]
    · by_cases h2 : string_less k' k = true
      · simp [std_map.assign, std_map.find, h1, h2, ih]
      · simp [std_map.assign, std_map.find, h1, h2, string_less_irrefl]

theorem std_map.find_assign_other (m : std_map β) (k k2 : String) (v : β) (hk : k2 ≠ k) :
    std_map.find (std_map.assign m k v) k2 = std_map.find m k2 := by
  induction m with
  | nil =>
    by_cases h1 : string_less k2 k = true
    · simp [std_map.assign, std_map.find, h1]
    · by_cases h2 : string_less k k2 = true
      · simp [std_map.assign, std_map.find, h1, h2]
      · exact absurd (eq_of_string_less_false (by simpa using h1) (by simpa using h2)) hk
  | cons e m ih =>
    obtain ⟨k', v'⟩ := e
    by_cases h1 : string_less k k' = true
    · by_cases h3 : string_less k2 k = true
      · have h4 : string_less k2 k' = true := by
          rw [string_less_iff] at *
          exact lt_trans h3 h1
        simp [std_map.assign, std_map.find, h1, h3, h4]
      · by_cases h5 : string_less k k2 = true
        · simp [std_map.assign, std_map.find, h1, h3, h5]
        · exact absurd (eq_of_string_less_false (by simpa using h3) (by simpa using h5)) hk
    · by_cases h2 : string_less k' k = true
      · simp [std_map.assign, std_map.find, h1, h2, ih]
      · have hkk : k = k' := eq_of_string_less_false (by simpa using h1) (by simpa using h2)
        subst hkk
        by_cases h3 : string_less k2 k = true
        · simp [std_map.assign, std_map.find, h1, h3]
        · by_cases h5 : string_less k k2 = true
          · simp [std_map.assign, std_map.find, h1, h3, h5]
          · exact absurd (eq_of_string_less_false (by simpa using h3) (by simpa using h5)) hk

theorem std_map.mem_keys_assign (m : std_map β) (k k2 : String) (v : β) :
    k2 ∈ std_map.keys (std_map.assign m k v) ↔ k2 = k ∨ k2 ∈ std_map.keys m := by
  induction m with
  | nil => simp [std_map.assign, std_map.keys]
  | cons e m ih =>
    obtain ⟨k', v'⟩ := e
    by_cases h1 : string_less k k' = true
    · simp [std_map.assign, std_map.keys, h1]
    · by_cases h2 : string_less k' k = true
      · simp only [std_map.keys] at ih
        simp [std_map.assign, std_map.keys, h1, h2, ih]
        tauto
      · have hkk : k = k' := eq_of_string_less_false (by simpa using h1) (by simpa using h2)
        subst hkk
        simp [std_map.assign, std_map.keys, h1]

theorem std_map.ordered_assign (m : std_map β) (k : String) (v : β) (hm : std_map.ordered m) :
    std_map.ordered (std_map.assign m k v) := by
  induction m with
  | nil => simp [std_map.assign, std_map.ordered, std_map.keys]
  | cons e m ih =>
    obtain ⟨k', v'⟩ := e
    have hm2 : k' ∉ [] ∧ (∀ x ∈ std_map.keys m, string_less k' x = true) ∧ std_map.ordered m := by
      simp only [std_map.ordered, std_map.keys, List.map_cons, List.pairwise_cons] at hm
      exact ⟨List.not_mem_nil _, hm.1, hm.2⟩
    by_cases h1 : string_less k k' = true
    · have hlt : ∀ x ∈ std_map.keys m, string_less k x = true := by
        intro x hx
        have := hm2.2.1 x hx
        rw [string_less_iff] at *
        exact lt_trans h1 this
      simp only [std_map.assign, h1, if_true, std_map.ordered, std_map.keys, List.map_cons,
        List.pairwise_cons]
      refine ⟨?_, ?_, hm2.2.2⟩
      · intro x hx
        rcases List.mem_cons.mp hx with hx | hx
        · rw [hx]; exact h1
        · exact hlt x hx
      · exact hm2.2.1
    · by_cases h2 : string_less k' k = true
      · have ih2 := ih hm2.2.2
        have he : std_map.assign ((k', v') :: m) k v = (k', v') :: std_map.assign m k v := by
          simp [std_map.assign, h1, h2]
        rw [he]
        simp only [std_map.ordered, std_map.keys, List.map_cons, List.pairwise_cons]
        refine ⟨?_, ih2⟩
        intro x hx
        rcases (std_map.mem_keys_assign m k x v).mp hx with hx | hx
        · rw [hx]; exact h2
        · exact hm2.2.1 x hx
      · have hkk : k = k' := eq_of_string_less_false (by simpa using h1) (by simpa using h2)
        subst hkk
        have he : std_map.assign ((k, v') :: m) k v = (k, v) :: m := by
          simp [std_map.assign, h1]
        rw [he]
        simp only [std_map.ordered, std_map.keys, List.map_cons, List.pairwise_cons]
        exact ⟨hm2.2.1, hm2.2.2⟩

theorem std_map.find_of_mem (m : std_map β) (hm : std_map.ordered m) (k : String) (v : β)
    (h : (k, v) ∈ m) : std_map.find m k = some v := by
  induction m with
  | nil => simp at h
  | cons e m ih =>
    obtain ⟨k', v'⟩ := e
    simp only [std_map.ordered, std_map.keys, List.map_cons, List.pairwise_cons] at hm
    rcases List.mem_cons.mp h with h | h
    · injection h with hk hv
      subst hk; subst hv
      simp [std_map.find, string_less_irrefl]
    · have hlt : string_less k' k = true := hm.1 k (List.mem_map_of_mem Prod.fst h)
      have hnlt : string_less k k' = false := by
        rw [string_less_eq_false_iff]
        rw [string_less_iff] at hlt
        exact le_of_lt hlt
      simp [std_map.find, hlt, hnlt, ih hm.2 h]

theorem std_map.mem_of_find (m : std_map β) (k : String) (v : β)
    (h : std_map.find m k = some v) : (k, v) ∈ m := by
  induction m with
  | nil => simp [std_map.find] at h
  | cons e m ih =>
    obtain ⟨k', v'⟩ := e
    by_cases h1 : string_less k k' = true
    · simp [std_map.find, h1] at h
    · by_cases h2 : string_less k' k = true
      · have he : std_map.find ((k', v') :: m) k = std_map.find m k := by
          simp [std_map.find, h1, h2]
        rw [he] at h
        exact List.mem_cons_of_mem _ (ih h)
      · have hkk : k = k' := eq_of_string_less_false (by simpa using h1) (by simpa using h2)
        subst hkk
        have he : std_map.find ((k, v') :: m) k = some v' := by
          simp [std_map.find, h1]
        rw [he] at h
        injection h with hv
        subst hv
        exact List.mem_cons_self _ _

end std_map_facts

/-! ## Facts on the detector renderer -/

namespace display

open svg proto style

section collect_facts

variable {α σ : Type}

theorem foldl_add_object {ι : Type} (f : ι → object α σ) (l : List ι) (d : object α σ) :
    l.foldl (fun d x => d.add_object (f x)) d =
      { d with _sub_objects := d._sub_objects ++ l.map f } := by
  induction l generalizing d with
  | nil =>
    cases d
    simp
  | cons x l ih =>
    rw [List.foldl_cons, ih]
    simp [object.add_object]

theorem collect_portals_eq (volumes : List (proto.volume α σ)) :
    collect_portals volumes =
      (volumes.flatMap (fun v => v._portals)).foldl
        (fun portals p => std_map.assign portals p._name p) [] := by
  unfold collect_portals
  generalize ([] : std_map (proto.portal α σ)) = m
  induction volumes generalizing m with
  | nil => simp
  | cons v vs ih =>
    rw [List.foldl_cons, ih]
    simp [List.flatMap_cons, List.foldl_append]

theorem assign_all_ordered (ps : List (proto.portal α σ)) (m : std_map (proto.portal α σ))
    (hm : std_map.ordered m) :
    std_map.ordered (ps.foldl (fun portals p => std_map.assign portals p._name p) m) := by
  induction ps generalizing m with
  | nil => simpa using hm
  | cons p ps ih =>
    rw [List.foldl_cons]
    exact ih _ (std_map.ordered_assign m p._name p hm)

theorem mem_keys_assign_all (ps : List (proto.portal α σ)) (m : std_map (proto.portal α σ))
    (k : String) :
    k ∈ std_map.keys (ps.foldl (fun portals p => std_map.assign portals p._name p) m) ↔
      k ∈ std_map.keys m ∨ ∃ p ∈ ps, p._name = k := by
  induction ps generalizing m with
  | nil => simp
  | cons p ps ih =>
    rw [List.foldl_cons, ih, std_map.mem_keys_assign]
    constructor
    · rintro ((h | h) | ⟨q, hq, hqk⟩)
      · exact Or.inr ⟨p, List.mem_cons_self _ _, h.symm⟩
      · exact Or.inl h
      · exact Or.inr ⟨q, List.mem_cons_of_mem _ hq, hqk⟩
    · rintro (h | ⟨q, hq, hqk⟩)
      · exact Or.inl (Or.inr h)
      · rcases List.mem_cons.mp hq with hq | hq
        · subst hq
          exact Or.inl (Or.inl hqk.symm)
        · exact Or.inr ⟨q, hq, hqk⟩

theorem find_assign_all (ps : List (proto.portal α σ)) (m : std_map (proto.portal α σ))
    (n : String) :
    std_map.find (ps.foldl (fun portals p => std_map.assign portals p._name p) m) n =
      ((ps.reverse.find? (fun q => decide (q._name = n))).orElse (fun _ => std_map.find m n)) := by
  induction ps using List.reverseRecOn with
  | nil => simp
  | append_singleton ps p ih =>
    rw [List.foldl_append, List.foldl_cons, List.foldl_nil, List.reverse_append,
      List.reverse_singleton, List.singleton_append, List.find?_cons]
    by_cases h : p._name = n
    · subst h
      simp [std_map.find_assign_same]
    · have h2 : n ≠ p._name := fun e => h e.symm
      rw [std_map.find_assign_other _ _ _ _ h2, ih]
      simp [h]

theorem find_collect_portals (volumes : List (proto.volume α σ)) (n : String) :
    std_map.find (collect_portals volumes) n =
      (volumes.flatMap (fun v => v._portals)).reverse.find? (fun q => decide (q._name = n)) := by
  rw [collect_portals_eq, find_assign_all]
  cases (volumes.flatMap (fun v => v._portals)).reverse.find? (fun q => decide (q._name = n)) with
  | none => simp [std_map.find]
  | some q => simp

theorem collect_portals_ordered (volumes : List (proto.volume α σ)) :
    std_map.ordered (collect_portals volumes) := by
  rw [collect_portals_eq]
  exact assign_all_ordered _ _ (by simp [std_map.ordered, std_map.keys])

theorem mem_keys_collect_portals (volumes : List (proto.volume α σ)) (k : String) :
    k ∈ std_map.keys (collect_portals volumes) ↔
      ∃ v ∈ volumes, ∃ p ∈ v._portals, p._name = k := by
  rw [collect_portals_eq, mem_keys_assign_all]
  simp only [std_map.keys, List.map_nil, List.not_mem_nil, false_or, List.mem_flatMap]
  constructor
  · rintro ⟨p, ⟨v, hv, hp⟩, hk⟩
    exact ⟨v, hv, p, hp, hk⟩
  · rintro ⟨v, hv, p, hp, hk⟩
    exact ⟨p, ⟨v, hv, hp⟩, hk⟩

theorem pairwise_string_less_nodup (l : List String)
    (h : l.Pairwise (fun a b => string_less a b = true)) : l.Nodup := by
  refine List.Pairwise.imp ?_ h
  intro a b hab e
  subst e
  rw [string_less_irrefl] at hab
  exact Bool.false_ne_true hab

end collect_facts

section detector_facts

variable {α σ : Type} [Scalar α] [Inhabited σ]

theorem portal_id (c : core α σ) (id_ : String) (p_ : proto.portal α σ) (v_ : view α) :
    (portal c id_ p_ v_)._id = id_ := by
  unfold portal
  simp only []
  rw [foldl_add_object]
  rfl

theorem detector_sub_objects (c : core α σ)
    (std_sort : (proto.volume α σ → proto.volume α σ → Bool) → List (proto.volume α σ) →
      List (proto.volume α σ))
    (id_ : String) (d_ : proto.detector α σ) (v_ : view α) :
    (detector c std_sort id_ d_ v_)._sub_objects =
      (std_sort depth_less d_._volumes).map (fun v => volume c v._name v v_ false) ++
        (collect_portals (std_sort depth_less d_._volumes)).map
          (fun np => portal c np.1 np.2 v_) := by
  unfold detector
  simp only []
  rw [foldl_add_object, foldl_add_object]
  simp [sterile_group, object.empty]

theorem portal_ids_eq_keys (c : core α σ) (v_ : view α) (m : std_map (proto.portal α σ)) :
    (m.map (fun np => portal c np.1 np.2 v_)).map (fun o => o._id) = std_map.keys m := by
  simp [std_map.keys, List.map_map, Function.comp_def, portal_id]

end detector_facts

end display

/-! ## The detector renderer: claims -/

namespace display

open svg proto style

section sample_sort_facts

variable {α σ : Type}

theorem depth_less_eq_false_iff (a b : proto.volume α σ) :
    depth_less b a = false ↔ a._depth_level ≤ b._depth_level := by
  simp [depth_less]

theorem sample_std_sort_contract :
    std_sort_contract (sample.std_sort : (proto.volume α σ → proto.volume α σ → Bool) → _)
      depth_less := by
  intro xs
  refine ⟨List.perm_insertionSort _ xs, ?_⟩
  have htot : IsTotal (proto.volume α σ) (fun a b => depth_less b a = false) :=
    ⟨fun a b => by
      simp only [depth_less_eq_false_iff]
      exact le_total _ _⟩
  have htr : IsTrans (proto.volume α σ) (fun a b => depth_less b a = false) :=
    ⟨fun a b c hab hbc => by
      simp only [depth_less_eq_false_iff] at *
      exact le_trans hab hbc⟩
  exact List.sorted_insertionSort (fun a b => depth_less b a = false) xs

end sample_sort_facts

section detector_claims

variable {α σ : Type} [Scalar α] [Inhabited σ]

/-- C1: under the contract of `std::sort`, the first `|d.volumes|` children of
`display::detector(id, d, view)` are the renders `volume(v.name, v, view,
false)` of a permutation of the volumes of `d`, and the depth levels of these
volumes, read in child order, are non-decreasing. -/
theorem C1_volumes_rendered_in_depth_order (c : core α σ)
    (std_sort : (proto.volume α σ → proto.volume α σ → Bool) → List (proto.volume α σ) →
      List (proto.volume α σ))
    (hs : std_sort_contract std_sort depth_less)
    (id_ : String) (d_ : proto.detector α σ) (v_ : view α) :
    ∃ volumes : List (proto.volume α σ),
      volumes.Perm d_._volumes ∧
      (volumes.map (fun v => v._depth_level)).Pairwise (fun m n => m ≤ n) ∧
      (detector c std_sort id_ d_ v_)._sub_objects.take d_._volumes.length =
        volumes.map (fun v => volume c v._name v v_ false) := by
  refine ⟨std_sort depth_less d_._volumes, (hs d_._volumes).1, ?_, ?_⟩
  · rw [List.pairwise_map]
    refine List.Pairwise.imp ?_ (hs d_._volumes).2
    intro a b hab
    exact (depth_less_eq_false_iff a b).mp hab
  · rw [detector_sub_objects]
    apply List.take_left'
    rw [List.length_map]
    exact (hs d_._volumes).1.length_eq

end detector_claims

/-- C1, witness: the sample detector with input depth levels `[2, 0, 1]`,
sorted by insertion sort, is rendered in the order `[0, 1, 2]`. -/
theorem C1_volumes_rendered_in_depth_order_witness :
    (∃ volumes : List (proto.volume ℚ Nat),
      volumes.Perm sample.det_201._volumes ∧
      (volumes.map (fun v => v._depth_level)).Pairwise (fun m n => m ≤ n) ∧
      (detector sample.draw sample.std_sort "d" sample.det_201 sample.xy)._sub_objects.take
          sample.det_201._volumes.length =
        volumes.map (fun v => volume sample.draw v._name v sample.xy false)) ∧
    sample.det_201._volumes.map (fun v => v._depth_level) = [2, 0, 1] ∧
    (detector sample.draw sample.std_sort "d" sample.det_201 sample.xy)._sub_objects.map
        (fun o => o._id) = ["v0", "v1", "v2"] :=
  ⟨C1_volumes_rendered_in_depth_order sample.draw sample.std_sort sample_std_sort_contract
      "d" sample.det_201 sample.xy, by decide, by decide⟩

end display

namespace display

open svg proto style

/-- C2, counterexample: `std::sort` of the GNU C++ library does not keep the
input order of 17 volumes of equal depth level.  The detector lists `v0`, ...,
`v16`, all of depth level 0; the median-of-three step moves `v8` to the front
and the partition step swaps the other volumes pairwise, so that `v8` is
rendered first and `v0`, which precedes every other volume in the input, is
rendered tenth. -/
theorem C2_counterexample_equal_depths_reordered :
    sample.det_17._volumes.map (fun v => (v._name, v._depth_level)) =
      [("v0", 0), ("v1", 0), ("v2", 0), ("v3", 0), ("v4", 0), ("v5", 0), ("v6", 0),
       ("v7", 0), ("v8", 0), ("v9", 0), ("v10", 0), ("v11", 0), ("v12", 0), ("v13", 0),
       ("v14", 0), ("v15", 0), ("v16", 0)] ∧
    (detector sample.draw libstdcxx.sort "d" sample.det_17 sample.xy)._sub_objects =
      (["v8", "v16", "v15", "v14", "v13", "v12", "v11", "v10", "v9", "v0", "v7", "v6",
        "v5", "v4", "v3", "v2", "v1"].map
        (fun n => volume sample.draw n (sample.vol n 0 []) sample.xy false)) ∧
    (detector sample.draw libstdcxx.sort "d" sample.det_17 sample.xy)._sub_objects.map
        (fun o => o._id) =
      ["v8", "v16", "v15", "v14", "v13", "v12", "v11", "v10", "v9", "v0", "v7", "v6",
       "v5", "v4", "v3", "v2", "v1"] :=
  ⟨by decide, by
    rw [detector_sub_objects]
    rfl, by decide⟩

section detector_claims2

variable {α σ : Type} [Scalar α] [Inhabited σ]

/-- C2, amended: under the contract of `std::sort`, the volume renders follow a
permutation of the volumes in which a volume of strictly smaller depth level
always stands before a volume of larger depth level; the relative order of
volumes of equal depth level is left to `std::sort`. -/
theorem C2_strictly_smaller_depth_first (c : core α σ)
    (std_sort : (proto.volume α σ → proto.volume α σ → Bool) → List (proto.volume α σ) →
      List (proto.volume α σ))
    (hs : std_sort_contract std_sort depth_less)
    (id_ : String) (d_ : proto.detector α σ) (v_ : view α) :
    ∃ volumes : List (proto.volume α σ),
      volumes.Perm d_._volumes ∧
      (detector c std_sort id_ d_ v_)._sub_objects.take d_._volumes.length =
        volumes.map (fun v => volume c v._name v v_ false) ∧
      ∀ (i j : Fin volumes.length),
        (volumes.get i)._depth_level < (volumes.get j)._depth_level → i < j := by
  refine ⟨std_sort depth_less d_._volumes, (hs d_._volumes).1, ?_, ?_⟩
  · rw [detector_sub_objects]
    apply List.take_left'
    rw [List.length_map]
    exact (hs d_._volumes).1.length_eq
  · intro i j hij
    by_contra hlt
    rcases lt_or_eq_of_le (not_lt.mp hlt) with h | h
    · have := List.pairwise_iff_get.mp (hs d_._volumes).2 j i h
      rw [depth_less_eq_false_iff] at this
      omega
    · rw [h] at hij
      exact lt_irrefl _ hij

/-- C3: under the contract of `std::sort`, the children of `display::detector`
after the `|d.volumes|` volume renders are renders of portals of `d`, their ids
are pairwise distinct, an id occurs among them exactly when it is the name of
a portal of some volume, every such name occurs exactly once, and the group
has `|volumes| + |distinct portal names|` children. -/
theorem C3_one_portal_object_per_name (c : core α σ)
    (std_sort : (proto.volume α σ → proto.volume α σ → Bool) → List (proto.volume α σ) →
      List (proto.volume α σ))
    (hs : std_sort_contract std_sort depth_less)
    (id_ : String) (d_ : proto.detector α σ) (v_ : view α) :
    (∀ o ∈ (detector c std_sort id_ d_ v_)._sub_objects.drop d_._volumes.length,
      ∃ v ∈ d_._volumes, ∃ p ∈ v._portals, o = portal c p._name p v_) ∧
    (((detector c std_sort id_ d_ v_)._sub_objects.drop d_._volumes.length).map
      (fun o => o._id)).Nodup ∧
    (∀ n : String,
      n ∈ ((detector c std_sort id_ d_ v_)._sub_objects.drop d_._volumes.length).map
          (fun o => o._id) ↔
        ∃ v ∈ d_._volumes, ∃ p ∈ v._portals, p._name = n) ∧
    (∀ n : String, (∃ v ∈ d_._volumes, ∃ p ∈ v._portals, p._name = n) →
      (((detector c std_sort id_ d_ v_)._sub_objects.drop d_._volumes.length).map
        (fun o => o._id)).count n = 1) ∧
    (detector c std_sort id_ d_ v_)._sub_objects.length =
      d_._volumes.length +
        ((d_._volumes.flatMap (fun v => v._portals)).map (fun p => p._name)).dedup.length := by
  have hperm := (hs d_._volumes).1
  have hdrop : (detector c std_sort id_ d_ v_)._sub_objects.drop d_._volumes.length =
      (collect_portals (std_sort depth_less d_._volumes)).map
        (fun np => portal c np.1 np.2 v_) := by
    rw [detector_sub_objects]
    apply List.drop_left'
    rw [List.length_map]
    exact hperm.length_eq
  have hids := portal_ids_eq_keys c v_ (collect_portals (std_sort depth_less d_._volumes))
  have hnodup : (std_map.keys (collect_portals (std_sort depth_less d_._volumes))).Nodup :=
    pairwise_string_less_nodup _ (collect_portals_ordered _)
  have hmem : ∀ n : String,
      n ∈ std_map.keys (collect_portals (std_sort depth_less d_._volumes)) ↔
        ∃ v ∈ d_._volumes, ∃ p ∈ v._portals, p._name = n := by
    intro n
    rw [mem_keys_collect_portals]
    constructor
    · rintro ⟨v, hv, p, hp, hn⟩
      exact ⟨v, hperm.mem_iff.mp hv, p, hp, hn⟩
    · rintro ⟨v, hv, p, hp, hn⟩
      exact ⟨v, hperm.mem_iff.mpr hv, p, hp, hn⟩
  rw [hdrop, hids]
  refine ⟨?_, hnodup, hmem, ?_, ?_⟩
  · intro o ho
    obtain ⟨np, hnp, rfl⟩ := List.mem_map.mp ho
    have hfind := std_map.find_of_mem _ (collect_portals_ordered _) np.1 np.2 hnp
    rw [find_collect_portals] at hfind
    have hmemp := List.mem_of_find?_eq_some hfind
    have hname := List.find?_some hfind
    simp only [decide_eq_true_eq] at hname
    rw [List.mem_reverse, List.mem_flatMap] at hmemp
    obtain ⟨v, hv, hp⟩ := hmemp
    exact ⟨v, hperm.mem_iff.mp hv, np.2, hp, by rw [hname]⟩
  · intro n hn
    exact List.count_eq_one_of_mem hnodup ((hmem n).mpr hn)
  · rw [detector_sub_objects, List.length_append, List.length_map, List.length_map,
      hperm.length_eq]
    congr 1
    have hlen : (collect_portals (std_sort depth_less d_._volumes)).length =
        (std_map.keys (collect_portals (std_sort depth_less d_._volumes))).length := by
      simp [std_map.keys]
    rw [hlen]
    apply List.Perm.length_eq
    rw [List.perm_ext_iff_of_nodup hnodup (List.nodup_dedup _)]
    intro n
    rw [hmem n, List.mem_dedup, List.mem_map]
    constructor
    · rintro ⟨v, hv, p, hp, hn⟩
      exact ⟨p, List.mem_flatMap.mpr ⟨v, hv, hp⟩, hn⟩
    · rintro ⟨p, hp, hn⟩
      obtain ⟨v, hv, hpv⟩ := List.mem_flatMap.mp hp
      exact ⟨v, hv, p, hpv, hn⟩


/-- C4: last write wins.  Under the contract of `std::sort`, if `p` is the last
portal named `n` met when the sorted volumes are traversed in order (each with
its portals in order), then `portal(n, p, view)` is among the portal objects of
the detector group and it is the only portal object with id `n`. -/
theorem C4_last_write_wins (c : core α σ)
    (std_sort : (proto.volume α σ → proto.volume α σ → Bool) → List (proto.volume α σ) →
      List (proto.volume α σ))
    (hs : std_sort_contract std_sort depth_less)
    (id_ : String) (d_ : proto.detector α σ) (v_ : view α)
    (n : String) (p : proto.portal α σ)
    (hlast : ((std_sort depth_less d_._volumes).flatMap (fun v => v._portals)).reverse.find?
      (fun q => decide (q._name = n)) = some p) :
    portal c n p v_ ∈ (detector c std_sort id_ d_ v_)._sub_objects.drop d_._volumes.length ∧
    ∀ o ∈ (detector c std_sort id_ d_ v_)._sub_objects.drop d_._volumes.length,
      o._id = n → o = portal c n p v_ := by
  have hperm := (hs d_._volumes).1
  have hdrop : (detector c std_sort id_ d_ v_)._sub_objects.drop d_._volumes.length =
      (collect_portals (std_sort depth_less d_._volumes)).map
        (fun np => portal c np.1 np.2 v_) := by
    rw [detector_sub_objects]
    apply List.drop_left'
    rw [List.length_map]
    exact hperm.length_eq
  have hfind : std_map.find (collect_portals (std_sort depth_less d_._volumes)) n = some p := by
    rw [find_collect_portals, hlast]
  rw [hdrop]
  constructor
  · exact List.mem_map.mpr ⟨(n, p), std_map.mem_of_find _ n p hfind, rfl⟩
  · intro o ho hid
    obtain ⟨np, hnp, rfl⟩ := List.mem_map.mp ho
    rw [portal_id] at hid
    have h2 := std_map.find_of_mem _ (collect_portals_ordered _) np.1 np.2 hnp
    rw [hid, hfind] at h2
    injection h2 with h2
    rw [hid, h2]

/-- C5: under the contract of `std::sort`, the children of the detector group
are the volume objects followed by the portal objects; every portal object is
the render of a portal of the detector under its name; a name is the id of a
portal object exactly when a portal of some volume of the detector carries
it, and then it is the id of exactly one portal object; the ids of the portal
objects are strictly ascending in the order of `std::string`. -/
theorem C5_portals_after_volumes_in_name_order (c : core α σ)
    (std_sort : (proto.volume α σ → proto.volume α σ → Bool) → List (proto.volume α σ) →
      List (proto.volume α σ))
    (hs : std_sort_contract std_sort depth_less)
    (id_ : String) (d_ : proto.detector α σ) (v_ : view α) :
    ∃ (volume_objects portal_objects : List (object α σ)),
      (detector c std_sort id_ d_ v_)._sub_objects = volume_objects ++ portal_objects ∧
      volume_objects =
        (std_sort depth_less d_._volumes).map (fun v => volume c v._name v v_ false) ∧
      volume_objects.length = d_._volumes.length ∧
      (∀ o ∈ portal_objects, ∃ v ∈ d_._volumes, ∃ p ∈ v._portals,
        o = portal c o._id p v_ ∧ p._name = o._id) ∧
      (∀ n : String, n ∈ portal_objects.map (fun o => o._id) ↔
        ∃ v ∈ d_._volumes, ∃ p ∈ v._portals, p._name = n) ∧
      (∀ v ∈ d_._volumes, ∀ p ∈ v._portals,
        (portal_objects.map (fun o => o._id)).count p._name = 1 ∧
        ∃ q, (∃ w ∈ d_._volumes, q ∈ w._portals) ∧ q._name = p._name ∧
          portal c p._name q v_ ∈ portal_objects) ∧
      (portal_objects.map (fun o => o._id)).Pairwise (fun a b => string_less a b = true) ∧
      (portal_objects.map (fun o => o._id)).Pairwise (fun a b => a < b) ∧
      (portal_objects.map (fun o => o._id)).Nodup := by
  have hperm := (hs d_._volumes).1
  have hord := collect_portals_ordered (std_sort depth_less d_._volumes)
  have hmem : ∀ n : String,
      n ∈ ((collect_portals (std_sort depth_less d_._volumes)).map
          (fun np => portal c np.1 np.2 v_)).map (fun o => o._id) ↔
        ∃ v ∈ d_._volumes, ∃ p ∈ v._portals, p._name = n := by
    intro n
    rw [portal_ids_eq_keys, mem_keys_collect_portals]
    constructor
    · rintro ⟨v, hv, p, hp, hn⟩
      exact ⟨v, hperm.mem_iff.mp hv, p, hp, hn⟩
    · rintro ⟨v, hv, p, hp, hn⟩
      exact ⟨v, hperm.mem_iff.mpr hv, p, hp, hn⟩
  have hof : ∀ np ∈ collect_portals (std_sort depth_less d_._volumes),
      (∃ w ∈ d_._volumes, np.2 ∈ w._portals) ∧ np.2._name = np.1 := by
    intro np hnp
    have hfind := std_map.find_of_mem _ hord np.1 np.2 hnp
    rw [find_collect_portals] at hfind
    have hmemp := List.mem_of_find?_eq_some hfind
    have hname := List.find?_some hfind
    simp only [decide_eq_true_eq] at hname
    rw [List.mem_reverse, List.mem_flatMap] at hmemp
    obtain ⟨v, hv, hp⟩ := hmemp
    exact ⟨⟨v, hperm.mem_iff.mp hv, hp⟩, hname⟩
  refine ⟨_, _, detector_sub_objects c std_sort id_ d_ v_, rfl, ?_, ?_, hmem, ?_, ?_, ?_, ?_⟩
  · rw [List.length_map]
    exact hperm.length_eq
  · intro o ho
    obtain ⟨np, hnp, rfl⟩ := List.mem_map.mp ho
    obtain ⟨⟨v, hv, hp⟩, hname⟩ := hof np hnp
    exact ⟨v, hv, np.2, hp, by rw [portal_id], by rw [portal_id, hname]⟩
  · intro v hv p hp
    have hin := (hmem p._name).mpr ⟨v, hv, p, hp, rfl⟩
    refine ⟨List.count_eq_one_of_mem ?_ hin, ?_⟩
    · rw [portal_ids_eq_keys]
      exact pairwise_string_less_nodup _ hord
    · rw [portal_ids_eq_keys] at hin
      obtain ⟨np, hnp, hk⟩ := List.mem_map.mp hin
      obtain ⟨hw, hname⟩ := hof np hnp
      refine ⟨np.2, hw, by rw [hname]; exact hk, ?_⟩
      refine List.mem_map.mpr ⟨np, hnp, ?_⟩
      show portal c np.1 np.2 v_ = portal c p._name np.2 v_
      rw [show np.1 = p._name from hk]
  · rw [portal_ids_eq_keys]
    exact hord
  · rw [portal_ids_eq_keys]
    refine List.Pairwise.imp ?_ hord
    intro a b hab
    exact (string_less_iff a b).mp hab
  · rw [portal_ids_eq_keys]
    exact pairwise_string_less_nodup _ hord

end detector_claims2

/-- C2 (amended), witness: the sample detector with depth levels `[2, 0, 1]`
sorted by insertion sort. -/
theorem C2_strictly_smaller_depth_first_witness :
    std_sort_contract
      (sample.std_sort : (proto.volume ℚ Nat → proto.volume ℚ Nat → Bool) → _) depth_less ∧
    ∃ volumes : List (proto.volume ℚ Nat),
      volumes.Perm sample.det_201._volumes ∧
      (detector sample.draw sample.std_sort "d" sample.det_201 sample.xy)._sub_objects.take
          sample.det_201._volumes.length =
        volumes.map (fun v => volume sample.draw v._name v sample.xy false) ∧
      ∀ (i j : Fin volumes.length),
        (volumes.get i)._depth_level < (volumes.get j)._depth_level → i < j :=
  ⟨sample_std_sort_contract,
    C2_strictly_smaller_depth_first sample.draw sample.std_sort sample_std_sort_contract
      "d" sample.det_201 sample.xy⟩

/-- C3, witness: in the sample detector two volumes list a portal named `P`;
exactly one portal object has the id `P`, and the group has `2 + 3` children. -/
theorem C3_one_portal_object_per_name_witness :
    std_sort_contract
      (sample.std_sort : (proto.volume ℚ Nat → proto.volume ℚ Nat → Bool) → _) depth_less ∧
    (((detector sample.draw sample.std_sort "d" sample.det_shared sample.xy)._sub_objects.drop
        sample.det_shared._volumes.length).map (fun o => o._id)).count "P" = 1 ∧
    (detector sample.draw sample.std_sort "d" sample.det_shared sample.xy)._sub_objects.length =
      sample.det_shared._volumes.length +
        ((sample.det_shared._volumes.flatMap (fun v => v._portals)).map
          (fun p => p._name)).dedup.length ∧
    ((detector sample.draw sample.std_sort "d" sample.det_shared sample.xy)._sub_objects.map
      (fun o => o._id)) = ["a", "b", "A", "P", "Q"] :=
  ⟨sample_std_sort_contract,
    (C3_one_portal_object_per_name sample.draw sample.std_sort sample_std_sort_contract
      "d" sample.det_shared sample.xy).2.2.2.1 "P"
      ⟨sample.vol "a" 0 [sample.portal_named "P" 7, sample.portal_named "Q" 3],
        List.mem_cons_self _ _, sample.portal_named "P" 7, List.mem_cons_self _ _, rfl⟩,
    (C3_one_portal_object_per_name sample.draw sample.std_sort sample_std_sort_contract
      "d" sample.det_shared sample.xy).2.2.2.2,
    by decide⟩

/-- C4, witness: in the sample detector the portal `P` of the later volume
(geometry tag 8) is the one rendered, not that of the earlier volume (tag 7). -/
theorem C4_last_write_wins_witness :
    std_sort_contract
      (sample.std_sort : (proto.volume ℚ Nat → proto.volume ℚ Nat → Bool) → _) depth_less ∧
    ((sample.std_sort depth_less sample.det_shared._volumes).flatMap
        (fun v => v._portals)).reverse.find? (fun q => decide (q._name = "P")) =
      some (sample.portal_named "P" 8) ∧
    (portal sample.draw "P" (sample.portal_named "P" 8) sample.xy ∈
        (detector sample.draw sample.std_sort "d" sample.det_shared sample.xy)._sub_objects.drop
          sample.det_shared._volumes.length ∧
      ∀ o ∈ (detector sample.draw sample.std_sort "d" sample.det_shared sample.xy)._sub_objects.drop
          sample.det_shared._volumes.length,
        o._id = "P" → o = portal sample.draw "P" (sample.portal_named "P" 8) sample.xy) :=
  ⟨sample_std_sort_contract, by rfl,
    C4_last_write_wins sample.draw sample.std_sort sample_std_sort_contract
      "d" sample.det_shared sample.xy "P" (sample.portal_named "P" 8) (by rfl)⟩

/-- C5, witness: the sample detector with the shared portal, sorted by
insertion sort; its portal objects have the ids `A`, `P`, `Q`. -/
theorem C5_portals_after_volumes_in_name_order_witness :
    std_sort_contract
      (sample.std_sort : (proto.volume ℚ Nat → proto.volume ℚ Nat → Bool) → _) depth_less ∧
    ((detector sample.draw sample.std_sort "d" sample.det_shared sample.xy)._sub_objects.map
      (fun o => o._id) = ["a", "b", "A", "P", "Q"]) ∧
    ∃ (volume_objects portal_objects : List (object ℚ Nat)),
      (detector sample.draw sample.std_sort "d" sample.det_shared sample.xy)._sub_objects =
        volume_objects ++ portal_objects ∧
      volume_objects = (sample.std_sort depth_less sample.det_shared._volumes).map
        (fun v => volume sample.draw v._name v sample.xy false) ∧
      volume_objects.length = sample.det_shared._volumes.length ∧
      (∀ o ∈ portal_objects, ∃ v ∈ sample.det_shared._volumes, ∃ p ∈ v._portals,
        o = portal sample.draw o._id p sample.xy ∧ p._name = o._id) ∧
      (∀ n : String, n ∈ portal_objects.map (fun o => o._id) ↔
        ∃ v ∈ sample.det_shared._volumes, ∃ p ∈ v._portals, p._name = n) ∧
      (∀ v ∈ sample.det_shared._volumes, ∀ p ∈ v._portals,
        (portal_objects.map (fun o => o._id)).count p._name = 1 ∧
        ∃ q, (∃ w ∈ sample.det_shared._volumes, q ∈ w._portals) ∧ q._name = p._name ∧
          portal sample.draw p._name q sample.xy ∈ portal_objects) ∧
      (portal_objects.map (fun o => o._id)).Pairwise (fun a b => string_less a b = true) ∧
      (portal_objects.map (fun o => o._id)).Pairwise (fun a b => a < b) ∧
      (portal_objects.map (fun o => o._id)).Nodup :=
  ⟨sample_std_sort_contract, by decide,
    C5_portals_after_volumes_in_name_order sample.draw sample.std_sort
      sample_std_sort_contract "d" sample.det_shared sample.xy⟩

end display


/-! ## Facts on the surface renderer -/

namespace display

open svg proto style

section surface_facts

variable {α σ : Type} [Scalar α] [Inhabited σ]

theorem surface_template (c : core α σ) (id_ : String) (s_ : proto.surface α σ) (v_ : view α)
    (b fs sc dt : Bool) (h : c.is_defined s_._template_object = true) :
    surface c id_ s_ v_ b fs sc dt =
      c.from_template id_ s_._template_object s_._fill s_._stroke
        (template_transform s_ sc dt) := by
  rw [surface]
  simp [h]

theorem surface_not_planar (c : core α σ) (id_ : String) (s_ : proto.surface α σ)
    (v_ : view α) (b fs sc dt : Bool) (hv : v_.kind ≠ view_kind.x_y) :
    surface c id_ s_ v_ b fs sc dt = surface c id_ s_ v_ false fs sc dt := by
  rw [surface, surface.eq_def c id_ s_ v_ false]
  simp [hv]

theorem surface_draw_boolean (c : core α σ) (id_ : String) (s_ : proto.surface α σ)
    (v_ : view α) (fs sc dt : Bool) (b0 : proto.surface α σ)
    (ht : c.is_defined s_._template_object = false) (hv : v_.kind = view_kind.x_y)
    (hbs : s_._boolean_surface = [b0])
    (hop : s_._boolean_operation = boolean.e_subtraction) :
    surface c id_ s_ v_ true fs sc dt =
      attach_mask c (surface c id_ s_ v_ false fs sc dt)
        (mask_object (id_ ++ "_mask") s_._stroke
          (mask_child (surface c (id_ ++ "_mask_surface_outer") s_ v_ false false false false)
            "white")
          (mask_child (surface c (id_ ++ "_mask_surface_inner") b0 v_ true false false false)
            "black"))
        (id_ ++ "_mask") := by
  obtain ⟨nm, ty, ra, op, zp, vs, bs, bo, tmpl, fl, st, tr⟩ := s_
  simp only at ht hbs hop
  subst hbs
  subst hop
  rw [surface.eq_def c id_ _ v_ true fs sc dt, surface.eq_def c id_ _ v_ false fs sc dt]
  simp [hv, ht]

theorem surface_no_boolean (c : core α σ) (id_ : String) (s_ : proto.surface α σ)
    (v_ : view α) (b fs sc dt : Bool)
    (h : s_._boolean_surface.length ≠ 1 ∨ s_._boolean_operation ≠ boolean.e_subtraction) :
    surface c id_ s_ v_ b fs sc dt = surface c id_ s_ v_ false fs sc dt := by
  obtain ⟨nm, ty, ra, op, zp, vs, bs, bo, tmpl, fl, st, tr⟩ := s_
  simp only at h
  rw [surface.eq_def c id_ _ v_ b fs sc dt, surface.eq_def c id_ _ v_ false fs sc dt]
  rcases bs with _ | ⟨b0, _ | ⟨b1, bs⟩⟩
  · simp
  · rcases h with h | h
    · simp at h
    · simp [h]
  · simp

theorem surface_zr (c : core α σ) (id_ : String) (s_ : proto.surface α σ) (v_ : view α)
    (fs sc dt : Bool) (ht : c.is_defined s_._template_object = false)
    (hv : v_.kind = view_kind.z_r) :
    surface c id_ s_ v_ false fs sc dt =
      if s_._type = surface_type.e_disc then
        c.line id_ (s_._zparameters.1, s_._radii.1) (s_._zparameters.1, s_._radii.2)
          s_._stroke (shape_transform s_ fs)
      else if s_._type = surface_type.e_cylinder then
        c.line id_ (Scalar.sub s_._zparameters.1 s_._zparameters.2, s_._radii.2)
          (Scalar.add s_._zparameters.1 s_._zparameters.2, s_._radii.2)
          s_._stroke (shape_transform s_ fs)
      else
        c.polygon id_ (v_.call s_._vertices) s_._fill s_._stroke (shape_transform s_ fs) := by
  rw [surface]
  simp [ht, hv]

theorem surface_disc_planar_sub_arc (c : core α σ) (id_ : String) (s_ : proto.surface α σ)
    (v_ : view α) (fs sc dt : Bool) (ht : c.is_defined s_._template_object = false)
    (hd : s_._type = surface_type.e_disc) (hv : v_.kind = view_kind.x_y)
    (ha : sub_arc s_._opening = true) :
    surface c id_ s_ v_ false fs sc dt =
      c.polygon id_
        (c.sector_contour s_._radii.1 s_._radii.2 s_._opening.1 s_._opening.2)
        s_._fill s_._stroke (shape_transform s_ fs) := by
  rw [surface]
  simp [ht, hd, hv, ha]

theorem surface_disc_planar_full_plain (c : core α σ) (id_ : String) (s_ : proto.surface α σ)
    (v_ : view α) (fs sc dt : Bool) (ht : c.is_defined s_._template_object = false)
    (hd : s_._type = surface_type.e_disc) (hv : v_.kind = view_kind.x_y)
    (ha : sub_arc s_._opening = false) (hr : Scalar.nonzero s_._radii.1 = false) :
    surface c id_ s_ v_ false fs sc dt =
      c.circle id_ origin2 s_._radii.2 s_._fill s_._stroke (shape_transform s_ fs) := by
  rw [surface]
  simp [ht, hd, hv, ha, hr]

theorem surface_disc_planar_full_ring (c : core α σ) (id_ : String) (s_ : proto.surface α σ)
    (v_ : view α) (fs sc dt : Bool) (ht : c.is_defined s_._template_object = false)
    (hd : s_._type = surface_type.e_disc) (hv : v_.kind = view_kind.x_y)
    (ha : sub_arc s_._opening = false) (hr : Scalar.nonzero s_._radii.1 = true) :
    surface c id_ s_ v_ false fs sc dt =
      attach_mask c
        (c.circle id_ origin2 s_._radii.2 s_._fill s_._stroke (shape_transform s_ fs))
        (mask_object (id_ ++ "_mask") (stroke.of_sterile true)
          (mask_child
            (c.circle (id_ ++ "_mask_surface_outer") origin2 s_._radii.2 s_._fill s_._stroke
              (shape_transform s_ false)) "white")
          (mask_child
            (c.circle (id_ ++ "_mask_surface_inner") origin2 s_._radii.1 s_._fill s_._stroke
              (shape_transform s_ false)) "black"))
        (id_ ++ "_mask") := by
  obtain ⟨nm, ty, ra, op, zp, vs, bs, bo, tmpl, fl, st, tr⟩ := s_
  simp only at ht hd ha hr
  subst hd
  have h1 := surface_disc_planar_full_plain c (id_ ++ "_mask_surface_outer")
    ⟨nm, surface_type.e_disc, (Scalar.ofNat 0, ra.2), op, zp, vs, bs, bo, tmpl, fl, st, tr⟩
    v_ false false false ht rfl hv ha Scalar.nonzero_zero
  have h2 := surface_disc_planar_full_plain c (id_ ++ "_mask_surface_inner")
    ⟨nm, surface_type.e_disc, (Scalar.ofNat 0, ra.1), op, zp, vs, bs, bo, tmpl, fl, st, tr⟩
    v_ false false false ht rfl hv ha Scalar.nonzero_zero
  rw [surface]
  simp [ht, hv, ha, hr, h1, h2, shape_transform]

theorem surface_masks (c : core α σ) (id_ : String) (s_ : proto.surface α σ)
    (v_ : view α) (b fs sc dt : Bool) (ht : c.is_defined s_._template_object = false)
    (hv : v_.kind = view_kind.x_y) :
    ∃ masks : List (object α σ), masks.length ≤ 1 ∧
      surface c id_ s_ v_ b fs sc dt =
        masks.foldl (fun o m => attach_mask c o m (id_ ++ "_mask"))
          (surface c id_ s_ v_ false fs sc dt) := by
  cases b with
  | false => exact ⟨[], by simp, rfl⟩
  | true =>
    by_cases h : s_._boolean_surface.length ≠ 1 ∨
        s_._boolean_operation ≠ boolean.e_subtraction
    · exact ⟨[], by simp, surface_no_boolean c id_ s_ v_ true fs sc dt h⟩
    · have h1 : s_._boolean_surface.length = 1 := by
        by_contra h1
        exact h (Or.inl h1)
      have h2 : s_._boolean_operation = boolean.e_subtraction := by
        by_contra h2
        exact h (Or.inr h2)
      obtain ⟨b0, hb0⟩ := List.length_eq_one.mp h1
      exact ⟨[_], by simp, surface_draw_boolean c id_ s_ v_ fs sc dt b0 ht hv hb0 h2⟩

end surface_facts

end display

/-! ## The surface renderer: claims -/

namespace display

open svg proto style

section sample_facts

theorem sample_draw_leaf : leaf_primitives sample.draw := by
  refine ⟨?_, ?_, ?_, ?_⟩ <;> intros <;>
    simp [no_mask, sample.draw, sample.leaf, std_map.find]

theorem sample_ring_full : sub_arc sample.ring._opening = false := by
  simp only [sub_arc, sample.ring, Scalar.lt, Scalar.abs, Scalar.sub, Scalar.mul, Scalar.neg,
    Scalar.ofNat, Scalar.M_PI, Scalar.epsilon]
  norm_num

theorem sample_ring_le :
    Scalar.le
        (Scalar.abs (Scalar.sub (Scalar.sub sample.ring._opening.2 sample.ring._opening.1)
          (Scalar.mul (Scalar.ofNat 2) Scalar.M_PI)))
        (Scalar.mul (Scalar.ofNat 5) (Scalar.epsilon : ℚ)) = true := by
  simp only [sample.ring, Scalar.le, Scalar.abs, Scalar.sub, Scalar.mul, Scalar.neg,
    Scalar.ofNat, Scalar.M_PI, Scalar.epsilon]
  norm_num

theorem sample_sector_sub_arc : sub_arc sample.sector._opening = true := by
  simp only [sub_arc, sample.sector, Scalar.lt, Scalar.abs, Scalar.sub, Scalar.mul,
    Scalar.ofNat, Scalar.M_PI, Scalar.epsilon]
  norm_num [abs_of_neg]

theorem sample_ring_nonzero : Scalar.nonzero sample.ring._radii.1 = true := by
  simp [sample.ring, Scalar.nonzero]

end sample_facts

section mask_facts

variable {α σ : Type}

theorem find_mask_attach_mask (c : core α σ) (s mask : object α σ) (mask_id : String) :
    std_map.find (attach_mask c s mask mask_id)._attribute_map "mask" =
      some (c.id_to_url mask_id) := by
  simp [attach_mask, std_map.find_assign_same]

theorem no_mask_mask_child [Inhabited σ] (o : object α σ) (colour : String) (h : no_mask o) :
    no_mask (mask_child o colour) := by
  refine ⟨h.1, ?_⟩
  simp only [mask_child]
  rw [std_map.find_assign_other _ _ _ _ (by decide)]
  exact h.2

theorem find_fill_mask_child [Inhabited σ] (o : object α σ) (colour : String) :
    std_map.find (mask_child o colour)._attribute_map "fill" = some colour := by
  simp [mask_child, std_map.find_assign_same]

end mask_facts

section surface_claims

variable {α σ : Type} [Scalar α] [Inhabited σ]

theorem full_turn_of_le (opening : α × α)
    (h : Scalar.le
        (Scalar.abs (Scalar.sub (Scalar.sub opening.2 opening.1)
          (Scalar.mul (Scalar.ofNat 2) Scalar.M_PI)))
        (Scalar.mul (Scalar.ofNat 5) Scalar.epsilon) = true) :
    sub_arc opening = false :=
  Scalar.lt_false_of_le _ _ h

/-- C6: for a disc without template, with full opening, non-zero inner radius
and no boolean subsurface, in the planar view and over a drawing layer whose
primitives carry no mask: the attribute map of the result maps `mask` to
`id_to_url(id + "_mask")`; the definitions list holds exactly one object,
tagged `mask` with id `id + "_mask"`, whose children are exactly the render of
the disc `{0, outer radius}` (a circle of the outer radius, id
`id + "_mask_surface_outer"`) with attribute `fill = white`, followed by the
render of the disc `{0, inner radius}` (id `id + "_mask_surface_inner"`) with
attribute `fill = black`; neither child carries a mask. -/
theorem C6_ring_mask_of_full_disc (c : core α σ) (hleaf : leaf_primitives c)
    (id_ : String) (s_ : proto.surface α σ) (v_ : view α) (b fs sc dt : Bool)
    (ht : c.is_defined s_._template_object = false)
    (hd : s_._type = surface_type.e_disc) (hv : v_.kind = view_kind.x_y)
    (ha : sub_arc s_._opening = false) (hr : Scalar.nonzero s_._radii.1 = true)
    (hbs : s_._boolean_surface = []) :
    std_map.find (surface c id_ s_ v_ b fs sc dt)._attribute_map "mask" =
      some (c.id_to_url (id_ ++ "_mask")) ∧
    ∃ mask outer inner : object α σ,
      (surface c id_ s_ v_ b fs sc dt)._definitions = [mask] ∧
      mask._tag = "mask" ∧ mask._id = id_ ++ "_mask" ∧
      mask._sub_objects = [outer, inner] ∧
      outer = mask_child
        (surface c (id_ ++ "_mask_surface_outer")
          { s_ with _radii := (Scalar.ofNat 0, s_._radii.2) } v_ false false false false)
        "white" ∧
      outer = mask_child
        (c.circle (id_ ++ "_mask_surface_outer") origin2 s_._radii.2 s_._fill s_._stroke
          (shape_transform s_ false)) "white" ∧
      inner = mask_child
        (surface c (id_ ++ "_mask_surface_inner")
          { s_ with _radii := (Scalar.ofNat 0, s_._radii.1) } v_ false false false false)
        "black" ∧
      inner = mask_child
        (c.circle (id_ ++ "_mask_surface_inner") origin2 s_._radii.1 s_._fill s_._stroke
          (shape_transform s_ false)) "black" ∧
      std_map.find outer._attribute_map "fill" = some "white" ∧
      std_map.find inner._attribute_map "fill" = some "black" ∧
      no_mask outer ∧ no_mask inner := by
  have hnb : surface c id_ s_ v_ b fs sc dt = surface c id_ s_ v_ false fs sc dt :=
    surface_no_boolean c id_ s_ v_ b fs sc dt (Or.inl (by simp [hbs]))
  have ho := surface_disc_planar_full_plain c (id_ ++ "_mask_surface_outer")
    { s_ with _radii := (Scalar.ofNat 0, s_._radii.2) } v_ false false false ht hd hv ha
    Scalar.nonzero_zero
  have hi := surface_disc_planar_full_plain c (id_ ++ "_mask_surface_inner")
    { s_ with _radii := (Scalar.ofNat 0, s_._radii.1) } v_ false false false ht hd hv ha
    Scalar.nonzero_zero
  rw [hnb, surface_disc_planar_full_ring c id_ s_ v_ fs sc dt ht hd hv ha hr]
  refine ⟨find_mask_attach_mask _ _ _ _,
    mask_object (id_ ++ "_mask") (stroke.of_sterile true)
      (mask_child
        (c.circle (id_ ++ "_mask_surface_outer") origin2 s_._radii.2 s_._fill s_._stroke
          (shape_transform s_ false)) "white")
      (mask_child
        (c.circle (id_ ++ "_mask_surface_inner") origin2 s_._radii.1 s_._fill s_._stroke
          (shape_transform s_ false)) "black"),
    _, _, ?_, rfl, rfl, rfl, ?_, rfl, ?_, rfl,
    find_fill_mask_child _ _, find_fill_mask_child _ _,
    no_mask_mask_child _ _ (hleaf.1 _ _ _ _ _ _), no_mask_mask_child _ _ (hleaf.1 _ _ _ _ _ _)⟩
  · simp [attach_mask, (hleaf.1 _ _ _ _ _ _).1]
  · rw [ho]
    rfl
  · rw [hi]
    rfl

/-- C8: in the cylindrical-radius (z-r) view `display::surface` returns the
same object with `draw_boolean = true` as with `draw_boolean = false`, for
every surface, id and setting of the other flags; and for a surface without
template, over a drawing layer whose primitives carry no mask, that object has
an empty definitions list and no `mask` attribute. -/
theorem C8_boolean_is_noop_in_zr_view (c : core α σ) (id_ : String)
    (s_ : proto.surface α σ) (v_ : view α) (fs sc dt : Bool)
    (hv : v_.kind = view_kind.z_r) :
    surface c id_ s_ v_ true fs sc dt = surface c id_ s_ v_ false fs sc dt ∧
    (leaf_primitives c → c.is_defined s_._template_object = false →
      ∀ b : Bool, (surface c id_ s_ v_ b fs sc dt)._definitions = [] ∧
        std_map.find (surface c id_ s_ v_ b fs sc dt)._attribute_map "mask" = none) := by
  have hne : v_.kind ≠ view_kind.x_y := by
    rw [hv]
    decide
  refine ⟨surface_not_planar c id_ s_ v_ true fs sc dt hne, ?_⟩
  intro hleaf ht b
  rw [surface_not_planar c id_ s_ v_ b fs sc dt hne, surface_zr c id_ s_ v_ fs sc dt ht hv]
  by_cases hd : s_._type = surface_type.e_disc
  · rw [if_pos hd]
    exact hleaf.2.2.1 _ _ _ _ _
  · rw [if_neg hd]
    by_cases hc : s_._type = surface_type.e_cylinder
    · rw [if_pos hc]
      exact hleaf.2.2.1 _ _ _ _ _
    · rw [if_neg hc]
      exact hleaf.2.2.2 _ _ _ _ _

/-- C9: for a surface whose template object is defined, `display::surface`
returns exactly `from_template(id, template_object, fill, stroke, T)`, where
`T` is the transform of the surface with translation and rotation set to zero
iff `as_template` is set and with the scale set to `(1, 1)` iff `apply_scale`
is false; the result is the same for every other surface with the same
template object, fill, stroke and transform, and for every view, value of
`draw_boolean` and value of the full-size flag. -/
theorem C9_template_short_circuit (c : core α σ) (id_ : String) (s_ : proto.surface α σ)
    (v_ : view α) (b fs sc dt : Bool) (ht : c.is_defined s_._template_object = true) :
    surface c id_ s_ v_ b fs sc dt =
      c.from_template id_ s_._template_object s_._fill s_._stroke
        { _tr := if dt = true then (Scalar.ofNat 0, Scalar.ofNat 0) else s_._transform._tr,
          _rot := if dt = true then (Scalar.ofNat 0, Scalar.ofNat 0, Scalar.ofNat 0)
            else s_._transform._rot,
          _scale := if sc = false then (Scalar.ofNat 1, Scalar.ofNat 1)
            else s_._transform._scale } ∧
    ∀ (s2 : proto.surface α σ) (v2 : view α) (b2 fs2 : Bool),
      s2._template_object = s_._template_object → s2._fill = s_._fill →
      s2._stroke = s_._stroke → s2._transform = s_._transform →
      surface c id_ s2 v2 b2 fs2 sc dt = surface c id_ s_ v_ b fs sc dt := by
  constructor
  · rw [surface_template c id_ s_ v_ b fs sc dt ht]
    cases dt <;> cases sc <;> simp [template_transform]
  · intro s2 v2 b2 fs2 h1 h2 h3 h4
    rw [surface_template c id_ s_ v_ b fs sc dt ht,
      surface_template c id_ s2 v2 b2 fs2 sc dt (by rw [h1]; exact ht)]
    simp [template_transform, h1, h2, h3, h4]

/-- C10, amended: disc and planar view, no template.  The code tests
`|(opening[1] - opening[0]) - 2 pi| > 5 epsilon`.  When this test is false, in
particular when `|(opening[1] - opening[0]) - 2 pi| <= 5 epsilon` and also when
the opening is NaN, the result is the circle centred at the origin with radius
`radii[1]` and the fill and stroke of the surface, to which only masks
`id + "_mask"` are attached (none at all when the inner radius is zero and
`draw_boolean` is false).  When the test is true the result with
`draw_boolean = false` is exactly the polygon of
`sector_contour(radii[0], radii[1], opening[0], opening[1])` with the fill and
stroke of the surface, whatever the inner radius, and with
`draw_boolean = true` at most the boolean mask is attached to this polygon. -/
theorem C10_disc_planar_dispatch (c : core α σ) (id_ : String) (s_ : proto.surface α σ)
    (v_ : view α) (fs sc dt : Bool) (ht : c.is_defined s_._template_object = false)
    (hd : s_._type = surface_type.e_disc) (hv : v_.kind = view_kind.x_y) :
    (Scalar.lt (Scalar.mul (Scalar.ofNat 5) Scalar.epsilon)
        (Scalar.abs (Scalar.sub (Scalar.sub s_._opening.2 s_._opening.1)
          (Scalar.mul (Scalar.ofNat 2) Scalar.M_PI))) = false →
      (∀ b : Bool, ∃ masks : List (object α σ),
        surface c id_ s_ v_ b fs sc dt =
          masks.foldl (fun o m => attach_mask c o m (id_ ++ "_mask"))
            (c.circle id_ origin2 s_._radii.2 s_._fill s_._stroke (shape_transform s_ fs))) ∧
      (Scalar.nonzero s_._radii.1 = false →
        surface c id_ s_ v_ false fs sc dt =
          c.circle id_ origin2 s_._radii.2 s_._fill s_._stroke (shape_transform s_ fs))) ∧
    (Scalar.le
        (Scalar.abs (Scalar.sub (Scalar.sub s_._opening.2 s_._opening.1)
          (Scalar.mul (Scalar.ofNat 2) Scalar.M_PI)))
        (Scalar.mul (Scalar.ofNat 5) Scalar.epsilon) = true →
      Scalar.lt (Scalar.mul (Scalar.ofNat 5) Scalar.epsilon)
        (Scalar.abs (Scalar.sub (Scalar.sub s_._opening.2 s_._opening.1)
          (Scalar.mul (Scalar.ofNat 2) Scalar.M_PI))) = false) ∧
    (Scalar.lt (Scalar.mul (Scalar.ofNat 5) Scalar.epsilon)
        (Scalar.abs (Scalar.sub (Scalar.sub s_._opening.2 s_._opening.1)
          (Scalar.mul (Scalar.ofNat 2) Scalar.M_PI))) = true →
      surface c id_ s_ v_ false fs sc dt =
        c.polygon id_
          (c.sector_contour s_._radii.1 s_._radii.2 s_._opening.1 s_._opening.2)
          s_._fill s_._stroke (shape_transform s_ fs) ∧
      (∀ b : Bool, ∃ masks : List (object α σ), masks.length ≤ 1 ∧
        (masks ≠ [] → b = true ∧ s_._boolean_surface.length = 1 ∧
          s_._boolean_operation = boolean.e_subtraction) ∧
        surface c id_ s_ v_ b fs sc dt =
          masks.foldl (fun o m => attach_mask c o m (id_ ++ "_mask"))
            (c.polygon id_
              (c.sector_contour s_._radii.1 s_._radii.2 s_._opening.1 s_._opening.2)
              s_._fill s_._stroke (shape_transform s_ fs)))) := by
  refine ⟨?_, full_turn_of_le s_._opening, ?_⟩
  · intro ha
    change sub_arc s_._opening = false at ha
    constructor
    · intro b
      obtain ⟨masks, -, hm⟩ := surface_masks c id_ s_ v_ b fs sc dt ht hv
      by_cases hr : Scalar.nonzero s_._radii.1 = true
      · rw [hm, surface_disc_planar_full_ring c id_ s_ v_ fs sc dt ht hd hv ha hr]
        exact ⟨_ :: masks, rfl⟩
      · refine ⟨masks, ?_⟩
        rw [hm, surface_disc_planar_full_plain c id_ s_ v_ fs sc dt ht hd hv ha
          (by simpa using hr)]
    · intro hr
      exact surface_disc_planar_full_plain c id_ s_ v_ fs sc dt ht hd hv ha hr
  · intro ha
    change sub_arc s_._opening = true at ha
    refine ⟨surface_disc_planar_sub_arc c id_ s_ v_ fs sc dt ht hd hv ha, ?_⟩
    intro b
    rw [← surface_disc_planar_sub_arc c id_ s_ v_ fs sc dt ht hd hv ha]
    by_cases h : b = true ∧ s_._boolean_surface.length = 1 ∧
        s_._boolean_operation = boolean.e_subtraction
    · obtain ⟨masks, hlen, hm⟩ := surface_masks c id_ s_ v_ b fs sc dt ht hv
      exact ⟨masks, hlen, fun _ => h, hm⟩
    · refine ⟨[], by simp, fun hne => absurd rfl hne, ?_⟩
      cases b with
      | false => rfl
      | true =>
        apply surface_no_boolean
        by_contra hcon
        apply h
        refine ⟨rfl, ?_, ?_⟩
        · by_contra h1
          exact hcon (Or.inl h1)
        · by_contra h2
          exact hcon (Or.inr h2)

end surface_claims

/-- C6, witness: the sample ring (radii `[1, 2]`, opening `[-M_PI, M_PI]`) in
the planar view carries the mask `r_mask` with the children
`r_mask_surface_outer` (white) and `r_mask_surface_inner` (black). -/
theorem C6_ring_mask_of_full_disc_witness :
    sub_arc sample.ring._opening = false ∧ Scalar.nonzero sample.ring._radii.1 = true ∧
    std_map.find
        (surface sample.draw "r" sample.ring sample.xy true false false false)._attribute_map
        "mask" = some "url(#r_mask)" ∧
    (surface sample.draw "r" sample.ring sample.xy true false false false)._definitions.map
        (fun m => (m._tag, m._id,
          m._sub_objects.map
            (fun o => (o._tag, o._id, o._definitions.length,
              std_map.find o._attribute_map "fill", std_map.find o._attribute_map "mask")))) =
      [("mask", "r_mask",
        [("circle", "r_mask_surface_outer", 0, some "white", none),
         ("circle", "r_mask_surface_inner", 0, some "black", none)])] := by
  obtain ⟨hattr, mask, outer, inner, hdefs, htag, hid, hsub, -, ho, -, hi, hfo, hfi, hno, hni⟩ :=
    C6_ring_mask_of_full_disc sample.draw sample_draw_leaf "r" sample.ring sample.xy
      true false false false rfl rfl rfl sample_ring_full sample_ring_nonzero rfl
  refine ⟨sample_ring_full, sample_ring_nonzero, hattr, ?_⟩
  rw [hdefs]
  simp only [List.map_cons, List.map_nil, htag, hid, hsub, hfo, hfi, hno.1, hno.2, hni.1,
    hni.2, List.length_nil]
  rw [ho, hi]
  rfl

/-- C8, witness: the sample surface with a subtraction subsurface, in the z-r
view. -/
theorem C8_boolean_is_noop_in_zr_view_witness :
    sample.zr.kind = view_kind.z_r ∧
    sample.nested._boolean_surface.length = 1 ∧
    sample.nested._boolean_operation = boolean.e_subtraction ∧
    surface sample.draw "s" sample.nested sample.zr true false false false =
      surface sample.draw "s" sample.nested sample.zr false false false false ∧
    (surface sample.draw "s" sample.nested sample.zr true false false false)._definitions = [] ∧
    std_map.find
      (surface sample.draw "s" sample.nested sample.zr true false false false)._attribute_map
      "mask" = none :=
  ⟨rfl, rfl, rfl,
    (C8_boolean_is_noop_in_zr_view sample.draw "s" sample.nested sample.zr false false false
      rfl).1,
    (C8_boolean_is_noop_in_zr_view sample.draw "s" sample.nested sample.zr false false false
      rfl).2 sample_draw_leaf rfl true⟩

/-- C9, witness: the sample surface with a template, drawn as template and
not at scale. -/
theorem C9_template_short_circuit_witness :
    sample.draw.is_defined sample.templated._template_object = true ∧
    surface sample.draw "t" sample.templated sample.xy true false false true =
      sample.draw.from_template "t" sample.templated._template_object
        sample.templated._fill sample.templated._stroke
        { _tr := (Scalar.ofNat 0, Scalar.ofNat 0),
          _rot := (Scalar.ofNat 0, Scalar.ofNat 0, Scalar.ofNat 0),
          _scale := (Scalar.ofNat 1, Scalar.ofNat 1) } ∧
    surface sample.draw "t" { sample.templated with _type := surface_type.e_polygon }
        sample.zr false true false true =
      surface sample.draw "t" sample.templated sample.xy true false false true :=
  ⟨rfl,
    (C9_template_short_circuit sample.draw "t" sample.templated sample.xy true false false true
      rfl).1,
    (C9_template_short_circuit sample.draw "t" sample.templated sample.xy true false false true
      rfl).2 _ sample.zr false true rfl rfl rfl rfl⟩

/-- C10 (amended), witness: the sample sector (opening `[0, 1]`, inner radius
1) is drawn as the polygon of its contour, without mask; the sample ring
(opening `[-M_PI, M_PI]`), which passes the `<=` test, is drawn as a circle
with masks attached. -/
theorem C10_disc_planar_dispatch_witness :
    surface sample.draw "r" sample.sector sample.xy false false false false =
      sample.draw.polygon "r"
        (sample.draw.sector_contour sample.sector._radii.1 sample.sector._radii.2
          sample.sector._opening.1 sample.sector._opening.2)
        sample.sector._fill sample.sector._stroke (shape_transform sample.sector false) ∧
    Scalar.le
        (Scalar.abs (Scalar.sub (Scalar.sub sample.ring._opening.2 sample.ring._opening.1)
          (Scalar.mul (Scalar.ofNat 2) Scalar.M_PI)))
        (Scalar.mul (Scalar.ofNat 5) (Scalar.epsilon : ℚ)) = true ∧
    ∃ masks : List (object ℚ Nat),
      surface sample.draw "r" sample.ring sample.xy true false false false =
        masks.foldl (fun o m => attach_mask sample.draw o m ("r" ++ "_mask"))
          (sample.draw.circle "r" origin2 sample.ring._radii.2 sample.ring._fill
            sample.ring._stroke (shape_transform sample.ring false)) :=
  ⟨((C10_disc_planar_dispatch sample.draw "r" sample.sector sample.xy false false false
      rfl rfl rfl).2.2 sample_sector_sub_arc).1,
    sample_ring_le,
    ((C10_disc_planar_dispatch sample.draw "r" sample.ring sample.xy false false false
      rfl rfl rfl).1
      ((C10_disc_planar_dispatch sample.draw "r" sample.ring sample.xy false false false
        rfl rfl rfl).2.1 sample_ring_le)).1 true⟩

/-- C10, counterexample: a disc whose opening is NaN fails the test
`|(opening[1] - opening[0]) - 2 pi| <= 5 epsilon`, and yet the planar view
draws it as the circle of radius `radii[1]`, not as the polygon of its sector
contour. -/
theorem C10_counterexample_nan_opening :
    Scalar.le
        (Scalar.abs (Scalar.sub
          (Scalar.sub sample.nan_disc._opening.2 sample.nan_disc._opening.1)
          (Scalar.mul (Scalar.ofNat 2) Scalar.M_PI)))
        (Scalar.mul (Scalar.ofNat 5) (Scalar.epsilon : sample.ieee)) = false ∧
    surface sample.ieee_draw "s" sample.nan_disc sample.ieee_xy false false false false =
      sample.ieee_draw.circle "s" origin2 (sample.ieee.num 2) ⟨1, false⟩ ⟨2, false⟩
        (shape_transform sample.nan_disc false) ∧
    (surface sample.ieee_draw "s" sample.nan_disc sample.ieee_xy false false false
      false)._tag = "circle" ∧
    surface sample.ieee_draw "s" sample.nan_disc sample.ieee_xy false false false false ≠
      sample.ieee_draw.polygon "s"
        (sample.ieee_draw.sector_contour sample.nan_disc._radii.1 sample.nan_disc._radii.2
          sample.nan_disc._opening.1 sample.nan_disc._opening.2)
        sample.nan_disc._fill sample.nan_disc._stroke
        (shape_transform sample.nan_disc false) :=
  ⟨rfl,
   surface_disc_planar_full_plain sample.ieee_draw "s" sample.nan_disc sample.ieee_xy
     false false false rfl rfl rfl rfl (by simp [sample.nan_disc, Scalar.nonzero]),
   by
    rw [surface_disc_planar_full_plain sample.ieee_draw "s" sample.nan_disc sample.ieee_xy
      false false false rfl rfl rfl rfl (by simp [sample.nan_disc, Scalar.nonzero])]
    rfl,
   by
    rw [surface_disc_planar_full_plain sample.ieee_draw "s" sample.nan_disc sample.ieee_xy
      false false false rfl rfl rfl rfl (by simp [sample.nan_disc, Scalar.nonzero])]
    intro h
    have h1 := congrArg (fun o => o._tag) h
    simp [sample.ieee_draw, sample.ieee_leaf] at h1⟩

end display

/-! ## The volume and portal renderers: facts -/

namespace display

open svg proto style

section volume_facts

variable {α σ : Type} [Scalar α] [Inhabited σ]

theorem sub_objects_sterile_group (id_ : String) :
    (sterile_group id_ : object α σ)._sub_objects = [] := rfl

/-- The portal loop of `display::volume`. -/
theorem volume_portals (c : core α σ) (id_ : String) (dv_ : proto.volume α σ) (v_ : view α)
    (v : object α σ) :
    (dv_._portals.enum.foldl
      (fun v ipp => v.add_object (portal c (id_ ++ "_portal_" ++ toString ipp.1) ipp.2 v_))
      v)._sub_objects =
      v._sub_objects ++ dv_._portals.enum.map
        (fun ipp => portal c (id_ ++ "_portal_" ++ toString ipp.1) ipp.2 v_) := by
  rw [foldl_add_object]

theorem volume_vertices (c : core α σ) (id_ : String) (dv_ : proto.volume α σ) (v_ : view α)
    (p_ : Bool) (hv : dv_._vertices ≠ []) :
    volume c id_ dv_ v_ p_ =
      let v := (sterile_group id_ : object α σ).add_object
        (c.polygon (id_ ++ "_volume") (v_.call dv_._vertices) dv_._fill dv_._stroke
          dv_._transform)
      if p_ = true then
        dv_._portals.enum.foldl
          (fun v ipp =>
            v.add_object (portal c (id_ ++ "_portal_" ++ toString ipp.1) ipp.2 v_)) v
      else v := by
  unfold volume
  have h : dv_._vertices.isEmpty = false := by
    cases hvs : dv_._vertices with
    | nil => exact absurd hvs hv
    | cons x xs => rfl
  simp [h]

theorem volume_no_shape (c : core α σ) (id_ : String) (dv_ : proto.volume α σ) (v_ : view α)
    (p_ : Bool) (hv : dv_._vertices = [])
    (hb : dv_._type ≠ volume_type.e_cylinder ∨ dv_._bound_values.length < 6) :
    volume c id_ dv_ v_ p_ =
      if p_ = true then
        dv_._portals.enum.foldl
          (fun v ipp =>
            v.add_object (portal c (id_ ++ "_portal_" ++ toString ipp.1) ipp.2 v_))
          (sterile_group id_)
      else sterile_group id_ := by
  obtain ⟨ty, nm, dl, vs, bv, fl, st, tr, ps⟩ := dv_
  simp only at hv hb
  subst hv
  unfold volume
  rcases hb with hb | hb
  · cases ty with
    | e_cylinder => exact absurd rfl hb
    | e_other => simp
  · cases ty with
    | e_other => simp
    | e_cylinder =>
      rcases bv with _ | ⟨a0, _ | ⟨a1, _ | ⟨a2, _ | ⟨a3, _ | ⟨a4, _ | ⟨a5, bv⟩⟩⟩⟩⟩⟩
      · simp
      · simp
      · simp
      · simp
      · simp
      · simp
      · simp at hb
        omega

theorem volume_cylinder (c : core α σ) (id_ : String) (dv_ : proto.volume α σ) (v_ : view α)
    (p_ : Bool) (ri ro zp zh ps ap : α) (rest : List α) (hv : dv_._vertices = [])
    (ht : dv_._type = volume_type.e_cylinder)
    (hb : dv_._bound_values = ri :: ro :: zp :: zh :: ps :: ap :: rest) :
    volume c id_ dv_ v_ p_ =
      let v : object α σ := sterile_group id_
      let v :=
        if v_.kind = view_kind.x_y then
          v.add_object
            (surface c (id_ ++ "_volume")
              { default_surface c with
                  _name := id_ ++ "_volume", _radii := (ri, ro),
                  _opening := (Scalar.sub ap ps, Scalar.add ap ps),
                  _zparameters := (zp, zh), _fill := dv_._fill, _stroke := dv_._stroke }
              v_ true false false false)
        else v
      let v :=
        if v_.kind = view_kind.z_r then
          v.add_object
            (c.polygon (id_ ++ "_volume")
              [(Scalar.sub zp zh, ri), (Scalar.add zp zh, ri),
               (Scalar.add zp zh, ro), (Scalar.sub zp zh, ro)]
              dv_._fill dv_._stroke dv_._transform)
        else v
      if p_ = true then
        dv_._portals.enum.foldl
          (fun v ipp =>
            v.add_object (portal c (id_ ++ "_portal_" ++ toString ipp.1) ipp.2 v_)) v
      else v := by
  obtain ⟨ty, nm, dl, vs, bv, fl, st, tr, pts⟩ := dv_
  simp only at hv ht hb
  subst hv
  subst ht
  subst hb
  unfold volume
  simp

theorem getElem?_enum_map {β γ : Type} (f : Nat × β → γ) (l : List β) (i : Nat) :
    (l.enum.map f)[i]? = (l[i]?).map (fun x => f (i, x)) := by
  rw [List.getElem?_map, List.getElem?_enum]
  cases l[i]? <;> rfl

end volume_facts

end display

/-! ## The volume and portal renderers: claims -/

namespace display

open svg proto style

section volume_claims

variable {α σ : Type} [Scalar α] [Inhabited σ]

/-- C13: a volume with empty vertices that is not a cylinder, or is a cylinder
with fewer than 6 bound values, is rendered in every view without shape
object: with portal drawing enabled the children of the group are exactly the
renders `portal(id + "_portal_" + i, portals[i], view)` for `i = 0 .. n-1` in
order, and with portal drawing disabled the group has no children. -/
theorem C13_volume_without_shape (c : core α σ) (id_ : String) (dv_ : proto.volume α σ)
    (v_ : view α) (hv : dv_._vertices = [])
    (hb : dv_._type ≠ volume_type.e_cylinder ∨ dv_._bound_values.length < 6) :
    (volume c id_ dv_ v_ true)._sub_objects =
      dv_._portals.enum.map
        (fun ipp => portal c (id_ ++ "_portal_" ++ toString ipp.1) ipp.2 v_) ∧
    (∀ i : Nat, (volume c id_ dv_ v_ true)._sub_objects[i]? =
      (dv_._portals[i]?).map (fun p => portal c (id_ ++ "_portal_" ++ toString i) p v_)) ∧
    (volume c id_ dv_ v_ true)._sub_objects.length = dv_._portals.length ∧
    (volume c id_ dv_ v_ false)._sub_objects = [] := by
  have h1 : (volume c id_ dv_ v_ true)._sub_objects =
      dv_._portals.enum.map
        (fun ipp => portal c (id_ ++ "_portal_" ++ toString ipp.1) ipp.2 v_) := by
    rw [volume_no_shape c id_ dv_ v_ true hv hb, if_pos rfl, volume_portals]
    rfl
  refine ⟨h1, ?_, ?_, ?_⟩
  · intro i
    rw [h1, getElem?_enum_map]
  · rw [h1, List.length_map, List.enum_length]
  · rw [volume_no_shape c id_ dv_ v_ false hv hb]
    rfl

/-- C14: for a volume with non-empty vertices the first child of
`display::volume` is `polygon(id + "_volume", view(vertices), fill, stroke,
transform)`, followed by the portal renders when portal drawing is enabled,
and the whole result does not depend on the kind and the bound values of the
volume. -/
theorem C14_vertices_take_precedence (c : core α σ) (id_ : String)
    (dv_ : proto.volume α σ) (v_ : view α) (p_ : Bool) (hv : dv_._vertices ≠ []) :
    (volume c id_ dv_ v_ p_)._sub_objects.head? =
      some (c.polygon (id_ ++ "_volume") (v_.call dv_._vertices) dv_._fill dv_._stroke
        dv_._transform) ∧
    (volume c id_ dv_ v_ p_)._sub_objects =
      c.polygon (id_ ++ "_volume") (v_.call dv_._vertices) dv_._fill dv_._stroke
          dv_._transform ::
        (if p_ = true then
          dv_._portals.enum.map
            (fun ipp => portal c (id_ ++ "_portal_" ++ toString ipp.1) ipp.2 v_)
        else []) ∧
    ∀ (ty : volume_type) (bv : List α),
      volume c id_ { dv_ with _type := ty, _bound_values := bv } v_ p_ =
        volume c id_ dv_ v_ p_ := by
  have h1 : (volume c id_ dv_ v_ p_)._sub_objects =
      c.polygon (id_ ++ "_volume") (v_.call dv_._vertices) dv_._fill dv_._stroke
          dv_._transform ::
        (if p_ = true then
          dv_._portals.enum.map
            (fun ipp => portal c (id_ ++ "_portal_" ++ toString ipp.1) ipp.2 v_)
        else []) := by
    rw [volume_vertices c id_ dv_ v_ p_ hv]
    cases p_ with
    | false => rfl
    | true =>
      simp only [if_true]
      rw [volume_portals]
      rfl
  refine ⟨?_, h1, ?_⟩
  · rw [h1]
    rfl
  · intro ty bv
    rw [volume_vertices c id_ dv_ v_ p_ hv,
      volume_vertices c id_ { dv_ with _type := ty, _bound_values := bv } v_ p_ hv]

/-- C16: for a cylinder volume with empty vertices and at least 6 bound values
`(ri, ro, zp, zh, ...)`, `display::volume` in the z-r view adds as its shape
child (the first child, followed by the portal renders when enabled) the
polygon `id + "_volume"` with exactly the four vertices `(zp - zh, ri)`,
`(zp + zh, ri)`, `(zp + zh, ro)`, `(zp - zh, ro)` in this order, drawn with
the fill, stroke and transform of the volume; the bound values after the first
four do not affect the result. -/
theorem C16_cylinder_volume_in_zr_view (c : core α σ) (id_ : String)
    (dv_ : proto.volume α σ) (v_ : view α) (p_ : Bool) (ri ro zp zh : α) (rest : List α)
    (hv : dv_._vertices = []) (ht : dv_._type = volume_type.e_cylinder)
    (hb : dv_._bound_values = ri :: ro :: zp :: zh :: rest) (hlen : 2 ≤ rest.length)
    (hview : v_.kind = view_kind.z_r) :
    (volume c id_ dv_ v_ p_)._sub_objects =
      c.polygon (id_ ++ "_volume")
          [(Scalar.sub zp zh, ri), (Scalar.add zp zh, ri),
           (Scalar.add zp zh, ro), (Scalar.sub zp zh, ro)]
          dv_._fill dv_._stroke dv_._transform ::
        (if p_ = true then
          dv_._portals.enum.map
            (fun ipp => portal c (id_ ++ "_portal_" ++ toString ipp.1) ipp.2 v_)
        else []) ∧
    ∀ rest2 : List α, 2 ≤ rest2.length →
      volume c id_ { dv_ with _bound_values := ri :: ro :: zp :: zh :: rest2 } v_ p_ =
        volume c id_ dv_ v_ p_ := by
  have hne : v_.kind ≠ view_kind.x_y := by
    rw [hview]
    decide
  have key : ∀ (dv : proto.volume α σ) (r : List α), dv._vertices = [] →
      dv._type = volume_type.e_cylinder → dv._bound_values = ri :: ro :: zp :: zh :: r →
      2 ≤ r.length →
      volume c id_ dv v_ p_ =
        (let v := (sterile_group id_ : object α σ).add_object
            (c.polygon (id_ ++ "_volume")
              [(Scalar.sub zp zh, ri), (Scalar.add zp zh, ri),
               (Scalar.add zp zh, ro), (Scalar.sub zp zh, ro)]
              dv._fill dv._stroke dv._transform)
          if p_ = true then
            dv._portals.enum.foldl
              (fun v ipp =>
                v.add_object (portal c (id_ ++ "_portal_" ++ toString ipp.1) ipp.2 v_)) v
          else v) := by
    intro dv r h1 h2 h3 h4
    rcases r with _ | ⟨ps, _ | ⟨ap, r⟩⟩
    · simp at h4
    · simp at h4
    · rw [volume_cylinder c id_ dv v_ p_ ri ro zp zh ps ap r h1 h2 h3]
      simp [hne, hview]
  constructor
  · rw [key dv_ rest hv ht hb hlen]
    cases p_ with
    | false => rfl
    | true =>
      simp only [if_true]
      rw [volume_portals]
      rfl
  · intro rest2 hlen2
    rw [key dv_ rest hv ht hb hlen,
      key { dv_ with _bound_values := ri :: ro :: zp :: zh :: rest2 } rest2 hv ht rfl hlen2]

/-- C17: `display::portal(id, p, view)` is a group with id `id`, sterile fill
and sterile stroke, whose children are `surface(id + "_surface", p.surface,
view)` followed, for `i = 0 .. n-1` in link order, by the link group
`portal_link(id + "_volume_link_" + i, p, link i, view)`, `n + 1` children in
all; every link group has tag `g`, the given id and exactly one child, the
arrow with id suffixed `_arrow` from the first to the second point of the
projection of `{start, end}`, with the stroke and markers of the link; for a
view that projects point by point these are the projections of the start and
of the end. -/
theorem C17_portal_group (c : core α σ) (id_ : String) (p_ : proto.portal α σ)
    (v_ : view α) :
    (portal c id_ p_ v_)._tag = "g" ∧ (portal c id_ p_ v_)._id = id_ ∧
    (portal c id_ p_ v_)._fill = fill.of_sterile true ∧
    (portal c id_ p_ v_)._stroke = stroke.of_sterile true ∧
    (portal c id_ p_ v_)._sub_objects =
      surface c (id_ ++ "_surface") p_._surface v_ true false false false ::
        p_._volume_links.enum.map
          (fun ilvl => portal_link c (id_ ++ "_volume_link_" ++ toString ilvl.1) p_ ilvl.2 v_) ∧
    (portal c id_ p_ v_)._sub_objects.length = p_._volume_links.length + 1 ∧
    (∀ i : Nat, (portal c id_ p_ v_)._sub_objects[i + 1]? =
      (p_._volume_links[i]?).map
        (fun l => portal_link c (id_ ++ "_volume_link_" ++ toString i) p_ l v_)) ∧
    (∀ (lid : String) (l : proto.link α σ),
      (portal_link c lid p_ l v_)._tag = "g" ∧ (portal_link c lid p_ l v_)._id = lid ∧
      (portal_link c lid p_ l v_)._sub_objects =
        [c.arrow (lid ++ "_arrow") ((v_.call [l._start, l._end]).getD 0 origin2)
          ((v_.call [l._start, l._end]).getD 1 origin2) l._stroke l._start_marker
          l._end_marker] ∧
      ∀ f : point3 α → point2 α, v_.call = List.map f →
        (portal_link c lid p_ l v_)._sub_objects =
          [c.arrow (lid ++ "_arrow") (f l._start) (f l._end) l._stroke l._start_marker
            l._end_marker]) := by
  have hsub : (portal c id_ p_ v_)._sub_objects =
      surface c (id_ ++ "_surface") p_._surface v_ true false false false ::
        p_._volume_links.enum.map
          (fun ilvl =>
            portal_link c (id_ ++ "_volume_link_" ++ toString ilvl.1) p_ ilvl.2 v_) := by
    unfold portal
    simp only []
    rw [foldl_add_object]
    rfl
  have hrest : (portal c id_ p_ v_)._tag = "g" ∧ (portal c id_ p_ v_)._id = id_ ∧
      (portal c id_ p_ v_)._fill = fill.of_sterile true ∧
      (portal c id_ p_ v_)._stroke = stroke.of_sterile true := by
    unfold portal
    simp only []
    rw [foldl_add_object]
    exact ⟨rfl, rfl, rfl, rfl⟩
  refine ⟨hrest.1, hrest.2.1, hrest.2.2.1, hrest.2.2.2, hsub, ?_, ?_, ?_⟩
  · rw [hsub, List.length_cons, List.length_map, List.enum_length]
  · intro i
    rw [hsub, List.getElem?_cons_succ, getElem?_enum_map]
  · intro lid l
    refine ⟨rfl, rfl, rfl, ?_⟩
    intro f hf
    unfold portal_link
    simp [hf, object.add_object, object.empty]

end volume_claims

end display

namespace display

open svg proto style

/-- C13, witness: the sample cylinder volume with five bound values and two
portals. -/
theorem C13_volume_without_shape_witness :
    sample.vol_short._type = volume_type.e_cylinder ∧
    sample.vol_short._bound_values.length = 5 ∧
    (volume sample.draw "v" sample.vol_short sample.xy true)._sub_objects =
      sample.vol_short._portals.enum.map
        (fun ipp => portal sample.draw ("v" ++ "_portal_" ++ toString ipp.1) ipp.2 sample.xy) ∧
    (volume sample.draw "v" sample.vol_short sample.xy true)._sub_objects.map
      (fun o => o._id) = ["v_portal_0", "v_portal_1"] ∧
    (volume sample.draw "v" sample.vol_short sample.xy false)._sub_objects = [] :=
  ⟨rfl, rfl,
    (C13_volume_without_shape sample.draw "v" sample.vol_short sample.xy rfl
      (Or.inr (by decide))).1,
    by decide,
    (C13_volume_without_shape sample.draw "v" sample.vol_short sample.xy rfl
      (Or.inr (by decide))).2.2.2⟩

/-- C14, witness: the sample cylinder volume with explicit vertices. -/
theorem C14_vertices_take_precedence_witness :
    (volume sample.draw "v" sample.vol_poly sample.xy false)._sub_objects.head? =
      some (sample.draw.polygon ("v" ++ "_volume") (sample.xy.call sample.vol_poly._vertices)
        sample.vol_poly._fill sample.vol_poly._stroke sample.vol_poly._transform) ∧
    volume sample.draw "v"
        { sample.vol_poly with _type := volume_type.e_other, _bound_values := [] }
        sample.xy false =
      volume sample.draw "v" sample.vol_poly sample.xy false :=
  ⟨(C14_vertices_take_precedence sample.draw "v" sample.vol_poly sample.xy false
      (by decide)).1,
    (C14_vertices_take_precedence sample.draw "v" sample.vol_poly sample.xy false
      (by decide)).2.2 volume_type.e_other []⟩

/-- C16, witness: the sample cylinder volume `[1, 2, 0, 5, M_PI, 0]` in the
z-r view. -/
theorem C16_cylinder_volume_in_zr_view_witness :
    (volume sample.draw "v" sample.vol_cyl sample.zr false)._sub_objects =
      [sample.draw.polygon ("v" ++ "_volume")
        [(Scalar.sub (0 : ℚ) 5, 1), (Scalar.add (0 : ℚ) 5, 1),
         (Scalar.add (0 : ℚ) 5, 2), (Scalar.sub (0 : ℚ) 5, 2)]
        sample.vol_cyl._fill sample.vol_cyl._stroke sample.vol_cyl._transform] ∧
    volume sample.draw "v" { sample.vol_cyl with _bound_values := [1, 2, 0, 5, 7, 8, 9] }
        sample.zr false =
      volume sample.draw "v" sample.vol_cyl sample.zr false :=
  ⟨(C16_cylinder_volume_in_zr_view sample.draw "v" sample.vol_cyl sample.zr false
      1 2 0 5 [Scalar.M_PI, 0] rfl rfl rfl (by decide) rfl).1,
    (C16_cylinder_volume_in_zr_view sample.draw "v" sample.vol_cyl sample.zr false
      1 2 0 5 [Scalar.M_PI, 0] rfl rfl rfl (by decide) rfl).2 [7, 8, 9] (by decide)⟩

/-- C17, witness: the sample portal with two volume links. -/
theorem C17_portal_group_witness :
    (portal sample.draw "p" sample.portal_links sample.xy)._sub_objects.length = 2 + 1 ∧
    (portal sample.draw "p" sample.portal_links sample.xy)._sub_objects.map
      (fun o => (o._tag, o._id, o._sub_objects.map (fun a => (a._tag, a._id)))) =
      [("polygon", "p_surface", []),
       ("g", "p_volume_link_0", [("arrow", "p_volume_link_0_arrow")]),
       ("g", "p_volume_link_1", [("arrow", "p_volume_link_1_arrow")])] ∧
    (portal_link sample.draw "l" sample.portal_links sample.link_a sample.xy)._sub_objects =
      [sample.draw.arrow ("l" ++ "_arrow") (0, 0) (1, 2) sample.link_a._stroke
        sample.link_a._start_marker sample.link_a._end_marker] := by
  have h := C17_portal_group sample.draw "p" sample.portal_links sample.xy
  refine ⟨h.2.2.2.2.2.1, ?_,
    (h.2.2.2.2.2.2.2 "l" sample.link_a).2.2.2 (fun p => (p.1, p.2.1)) rfl⟩
  rw [h.2.2.2.2.1]
  have hs : surface sample.draw ("p" ++ "_surface") sample.portal_links._surface sample.xy
      true false false false =
      sample.leaf "polygon" "p_surface" ⟨1, false⟩ ⟨2, false⟩ transform.identity := by
    rw [surface]
    rfl
  rw [hs]
  rfl

end display

/-! ## Cylinder arcs and planar cylinder volumes -/

namespace display

open svg proto style

section cylinder_facts

variable {α σ : Type} [Scalar α] [Inhabited σ]

theorem surface_cylinder_planar (c : core α σ) (id_ : String) (s_ : proto.surface α σ)
    (v_ : view α) (fs sc dt : Bool) (ht : c.is_defined s_._template_object = false)
    (hc : s_._type = surface_type.e_cylinder) (hv : v_.kind = view_kind.x_y) :
    surface c id_ s_ v_ false fs sc dt =
      if sub_arc s_._opening = true then
        c.arc id_ s_._radii.2
          (Scalar.mul s_._radii.2 (Scalar.cos s_._opening.1),
            Scalar.mul s_._radii.2 s_._opening.1)
          (Scalar.mul s_._radii.2 (Scalar.cos s_._opening.2),
            Scalar.mul s_._radii.2 s_._opening.2)
          (fill.of_sterile false) s_._stroke (shape_transform s_ fs)
      else
        c.circle id_ origin2 s_._radii.2 (fill.of_sterile false) s_._stroke
          (shape_transform s_ fs) := by
  rw [surface]
  simp [ht, hc, hv]

theorem volume_cylinder_planar (c : core α σ) (id_ : String) (dv_ : proto.volume α σ)
    (v_ : view α) (ri ro zp zh ps ap : α) (rest : List α) (hv : dv_._vertices = [])
    (ht : dv_._type = volume_type.e_cylinder)
    (hb : dv_._bound_values = ri :: ro :: zp :: zh :: ps :: ap :: rest)
    (hview : v_.kind = view_kind.x_y) :
    (volume c id_ dv_ v_ false)._sub_objects =
      [surface c (id_ ++ "_volume")
        { _name := id_ ++ "_volume", _type := c.surface_default_type, _radii := (ri, ro),
          _opening := (Scalar.sub ap ps, Scalar.add ap ps), _zparameters := (zp, zh),
          _vertices := [], _boolean_surface := [], _boolean_operation := boolean.e_none,
          _template_object := object.empty, _fill := dv_._fill, _stroke := dv_._stroke,
          _transform := transform.identity }
        v_ true false false false] := by
  have hne : v_.kind ≠ view_kind.z_r := by
    rw [hview]
    decide
  rw [volume_cylinder c id_ dv_ v_ false ri ro zp zh ps ap rest hv ht hb]
  simp [hne, hview, object.add_object, sterile_group, object.empty, default_surface]

end cylinder_facts

theorem sample_cyl_sub_arc : sub_arc sample.cyl._opening = true := by
  simp only [sub_arc, sample.cyl, Scalar.lt, Scalar.abs, Scalar.sub, Scalar.mul,
    Scalar.ofNat, Scalar.M_PI, Scalar.epsilon]
  norm_num [abs_of_neg]

/-- C11, the code at the failing input: for the sample cylinder (outer radius
2, opening `[1, 2]`) in the planar view the arc primitive receives the start
point `(2 cos 1, 2 * 1)` and the end point `(2 cos 2, 2 * 2)`, that is the
second coordinates `2` and `4`: the angle itself is multiplied by the radius,
no sine is taken. -/
theorem C11_cylinder_arc_end_points
    (arc : String → ℚ → point2 ℚ → point2 ℚ → fill Nat → stroke Nat → transform ℚ →
      object ℚ Nat) :
    surface (sample.draw_arc arc) "c" sample.cyl sample.xy true false false false =
      arc "c" 2
        (Scalar.mul (2 : ℚ) (Scalar.cos 1), Scalar.mul (2 : ℚ) 1)
        (Scalar.mul (2 : ℚ) (Scalar.cos 2), Scalar.mul (2 : ℚ) 2)
        (fill.of_sterile false) sample.cyl._stroke (shape_transform sample.cyl false) ∧
    (Scalar.mul (2 : ℚ) 1, Scalar.mul (2 : ℚ) 2) = ((2 : ℚ), (4 : ℚ)) ∧
    Scalar.mul (2 : ℚ) 1 ≠ Scalar.mul (2 : ℚ) (Scalar.sin 1) := by
  refine ⟨?_, ?_, ?_⟩
  · rw [surface_no_boolean (sample.draw_arc arc) "c" sample.cyl sample.xy true false false false
        (Or.inl (by decide)),
      surface_cylinder_planar (sample.draw_arc arc) "c" sample.cyl sample.xy false false false
        rfl rfl rfl,
      if_pos sample_cyl_sub_arc]
    rfl
  · simp only [Scalar.mul]
    norm_num
  · simp only [Scalar.mul, Scalar.sin]
    norm_num

/-- C15, the code at the failing input: with a default constructed
`proto::surface` that is not a disc, the full-turn sample cylinder volume
`[1, 2, 0, 5, M_PI, 0]` gets in the planar view the polygon of the empty vertex
list as its shape child, whereas the render of the disc-kind surface with the
same radii, opening, z-parameters, fill and stroke is a circle. -/
theorem C15_planar_cylinder_volume_default_kind :
    (volume sample.draw_untyped "v" sample.vol_cyl sample.xy false)._sub_objects =
      [sample.draw_untyped.polygon "v_volume" (sample.xy.call [])
        sample.vol_cyl._fill sample.vol_cyl._stroke transform.identity] ∧
    (volume sample.draw_untyped "v" sample.vol_cyl sample.xy false)._sub_objects.map
      (fun o => (o._tag, o._id)) = [("polygon", "v_volume")] ∧
    (surface sample.draw_untyped "v_volume" sample.disc_of_vol_cyl sample.xy
      true false false false)._tag = "circle" := by
  have h := volume_cylinder_planar sample.draw_untyped "v" sample.vol_cyl sample.xy
    1 2 0 5 Scalar.M_PI 0 [] rfl rfl rfl rfl
  have hs : surface sample.draw_untyped ("v" ++ "_volume")
      { _name := "v" ++ "_volume", _type := sample.draw_untyped.surface_default_type,
        _radii := (1, 2),
        _opening := (Scalar.sub (0 : ℚ) Scalar.M_PI, Scalar.add (0 : ℚ) Scalar.M_PI),
        _zparameters := (0, 5), _vertices := [], _boolean_surface := [],
        _boolean_operation := boolean.e_none, _template_object := object.empty,
        _fill := sample.vol_cyl._fill, _stroke := sample.vol_cyl._stroke,
        _transform := transform.identity }
      sample.xy true false false false =
      sample.draw_untyped.polygon "v_volume" (sample.xy.call [])
        sample.vol_cyl._fill sample.vol_cyl._stroke transform.identity := by
    rw [surface]
    rfl
  refine ⟨?_, ?_, ?_⟩
  · rw [h, hs]
  · rw [h, hs]
    rfl
  · have hfull : sub_arc sample.disc_of_vol_cyl._opening = false := by
      simp only [sub_arc, sample.disc_of_vol_cyl, Scalar.lt, Scalar.abs, Scalar.sub,
        Scalar.add, Scalar.mul, Scalar.ofNat, Scalar.M_PI, Scalar.epsilon]
      norm_num
    have hnz : Scalar.nonzero sample.disc_of_vol_cyl._radii.1 = true := by
      simp [sample.disc_of_vol_cyl, Scalar.nonzero]
    rw [surface_no_boolean sample.draw_untyped "v_volume" sample.disc_of_vol_cyl sample.xy
        true false false false (Or.inl (by decide)),
      surface_disc_planar_full_ring sample.draw_untyped "v_volume" sample.disc_of_vol_cyl
        sample.xy false false false rfl rfl rfl hfull hnz]
    rfl

end display

/-! ## Termination and the two masks of a ring with a boolean subsurface -/

namespace display

open svg proto style

section nesting_facts

variable {α σ : Type}

theorem boolean_nesting_single (s_ b0 : proto.surface α σ) (h : s_._boolean_surface = [b0]) :
    boolean_nesting s_ = boolean_nesting b0 + 1 := by
  obtain ⟨nm, ty, ra, op, zp, vs, bs, bo, tmpl, fl, st, tr⟩ := s_
  simp only at h
  subst h
  rw [boolean_nesting]

theorem std_map.assign_assign_same {β : Type} (m : std_map β) (k : String) (v v2 : β) :
    std_map.assign (std_map.assign m k v) k v2 = std_map.assign m k v2 := by
  induction m with
  | nil => simp [std_map.assign, string_less_irrefl]
  | cons e m ih =>
    obtain ⟨k', v'⟩ := e
    by_cases h1 : string_less k k' = true
    · simp [std_map.assign, h1, string_less_irrefl]
    · by_cases h2 : string_less k' k = true
      · simp [std_map.assign, h1, h2, ih]
      · simp [std_map.assign, h1, h2, string_less_irrefl]

end nesting_facts

section fuel_facts

variable {α σ : Type} [Scalar α] [Inhabited σ]

set_option maxHeartbeats 4000000 in
theorem surface_fuel_eq (c : core α σ) (n : Nat) :
    ∀ (id_ : String) (s_ : proto.surface α σ) (v_ : view α) (b fs sc dt : Bool),
      call_depth_bound s_ b ≤ n →
      surface_fuel c n id_ s_ v_ b fs sc dt = some (surface c id_ s_ v_ b fs sc dt) := by
  induction n with
  | zero =>
    intro id_ s_ v_ b fs sc dt h
    unfold call_depth_bound at h
    split_ifs at h <;> omega
  | succ n ih =>
    intro id_ s_ v_ b fs sc dt h
    obtain ⟨nm, ty, ra, op, zp, vs, bs, bo, tmpl, fl, st, tr⟩ := s_
    have hring : Scalar.nonzero ra.1 = true →
        (∀ (i2 : String) (r2 : α),
          surface_fuel c n i2
            ⟨nm, ty, (Scalar.ofNat 0, r2), op, zp, vs, bs, bo, tmpl, fl, st, tr⟩ v_
            false false false false =
          some (surface c i2
            ⟨nm, ty, (Scalar.ofNat 0, r2), op, zp, vs, bs, bo, tmpl, fl, st, tr⟩ v_
            false false false false)) := by
      intro hr i2 r2
      apply ih
      unfold call_depth_bound at h ⊢
      simp only [hr, Scalar.nonzero_zero] at h ⊢
      split_ifs at h <;> simp <;> omega
    have hbool : b = true → ∀ b0 : proto.surface α σ, bs = [b0] →
        surface_fuel c n (id_ ++ "_mask_surface_outer")
            ⟨nm, ty, ra, op, zp, vs, bs, bo, tmpl, fl, st, tr⟩ v_ false false false false =
          some (surface c (id_ ++ "_mask_surface_outer")
            ⟨nm, ty, ra, op, zp, vs, bs, bo, tmpl, fl, st, tr⟩ v_ false false false false) ∧
        surface_fuel c n (id_ ++ "_mask_surface_inner") b0 v_ true false false false =
          some (surface c (id_ ++ "_mask_surface_inner") b0 v_ true false false false) := by
      intro hb b0 hbs
      have hn := boolean_nesting_single
        ⟨nm, ty, ra, op, zp, vs, bs, bo, tmpl, fl, st, tr⟩ b0 hbs
      unfold call_depth_bound at h
      rw [if_pos hb, hn] at h
      constructor
      · apply ih
        unfold call_depth_bound
        simp only [Bool.false_eq_true, if_false]
        split_ifs <;> omega
      · apply ih
        unfold call_depth_bound
        simp only [if_true]
        omega
    rw [surface_fuel, surface]
    cases htm : c.is_defined tmpl
    · by_cases hr : Scalar.nonzero ra.1 = true
      · cases b
        · simp [htm, hr, hring hr]
          split_ifs <;> rfl
        · rcases bs with _ | ⟨b0, _ | ⟨b1, bs⟩⟩
          · simp [htm, hr, hring hr]
            split_ifs <;> rfl
          · simp [htm, hr, hring hr, (hbool rfl b0 rfl).1, (hbool rfl b0 rfl).2]
            split_ifs <;> rfl
          · simp [htm, hr, hring hr]
            split_ifs <;> rfl
      · cases b
        · simp [htm, hr]
          split_ifs <;> rfl
        · rcases bs with _ | ⟨b0, _ | ⟨b1, bs⟩⟩
          · simp [htm, hr]
            split_ifs <;> rfl
          · simp [htm, hr, (hbool rfl b0 rfl).1, (hbool rfl b0 rfl).2]
            split_ifs <;> rfl
          · simp [htm, hr]
            split_ifs <;> rfl
    · simp [htm]


/-- C19: `display::surface` terminates on every input, with a call stack
bounded by the nesting depth of `_boolean_surface` plus a constant.  Run with
a bound on the depth of the call stack, the code returns the value of the
total function `surface` (defined by well-founded recursion) as soon as the
bound is at least `boolean_nesting s + 2`; with `draw_boolean = false` the
bound 2 is enough for every surface (the call and its two ring silhouettes),
and the bound 1 is enough for a silhouette, whose inner radius is 0, so that
it makes no further call; the boolean subsurface on which a call with
`draw_boolean = true` recurses has a strictly smaller nesting depth. -/
theorem C19_surface_terminates (c : core α σ) (id_ : String) (s_ : proto.surface α σ)
    (v_ : view α) (b fs sc dt : Bool) :
    (∀ k : Nat, surface_fuel c (boolean_nesting s_ + 2 + k) id_ s_ v_ b fs sc dt =
      some (surface c id_ s_ v_ b fs sc dt)) ∧
    (∀ k : Nat, surface_fuel c (2 + k) id_ s_ v_ false fs sc dt =
      some (surface c id_ s_ v_ false fs sc dt)) ∧
    (∀ (k : Nat) (r : α),
      surface_fuel c (1 + k) id_ { s_ with _radii := (Scalar.ofNat 0, r) } v_
          false fs sc dt =
        some (surface c id_ { s_ with _radii := (Scalar.ofNat 0, r) } v_ false fs sc dt)) ∧
    (∀ b0 : proto.surface α σ, s_._boolean_surface = [b0] →
      boolean_nesting b0 < boolean_nesting s_) := by
  refine ⟨?_, ?_, ?_, ?_⟩
  · intro k
    apply surface_fuel_eq
    unfold call_depth_bound
    split_ifs <;> omega
  · intro k
    apply surface_fuel_eq
    unfold call_depth_bound
    simp only [Bool.false_eq_true, if_false]
    split_ifs <;> omega
  · intro k r
    apply surface_fuel_eq
    unfold call_depth_bound
    simp only [Bool.false_eq_true, if_false, Scalar.nonzero_zero]
    omega
  · intro b0 hb0
    rw [boolean_nesting_single s_ b0 hb0]
    omega

/-- C20, amended: for a full-opening disc without template, with non-zero
inner radius and exactly one boolean subsurface with operation subtraction, in
the planar view with `draw_boolean = true` and over a drawing layer whose
primitives carry no mask: the definitions list of the result holds exactly two
objects,
the ring mask (the only definition of the render with `draw_boolean = false`)
and then the boolean mask, both tagged `mask` and both with the id
`id + "_mask"`, while the attribute map is that of the circle with the single
entry `mask -> id_to_url(id + "_mask")` assigned. -/
theorem C20_two_masks_share_one_id (c : core α σ) (hleaf : leaf_primitives c)
    (id_ : String) (s_ : proto.surface α σ) (v_ : view α) (fs sc dt : Bool)
    (b0 : proto.surface α σ)
    (ht : c.is_defined s_._template_object = false)
    (hd : s_._type = surface_type.e_disc) (hv : v_.kind = view_kind.x_y)
    (ha : sub_arc s_._opening = false) (hr : Scalar.nonzero s_._radii.1 = true)
    (hbs : s_._boolean_surface = [b0])
    (hop : s_._boolean_operation = boolean.e_subtraction) :
    ∃ ring_mask boolean_mask : object α σ,
      (surface c id_ s_ v_ true fs sc dt)._definitions = [ring_mask, boolean_mask] ∧
      (surface c id_ s_ v_ false fs sc dt)._definitions = [ring_mask] ∧
      ring_mask._tag = "mask" ∧ boolean_mask._tag = "mask" ∧
      ring_mask._id = id_ ++ "_mask" ∧ boolean_mask._id = id_ ++ "_mask" ∧
      ring_mask._sub_objects =
        [mask_child
          (c.circle (id_ ++ "_mask_surface_outer") origin2 s_._radii.2 s_._fill s_._stroke
            (shape_transform s_ false)) "white",
         mask_child
          (c.circle (id_ ++ "_mask_surface_inner") origin2 s_._radii.1 s_._fill s_._stroke
            (shape_transform s_ false)) "black"] ∧
      boolean_mask._sub_objects =
        [mask_child
          (surface c (id_ ++ "_mask_surface_outer") s_ v_ false false false false) "white",
         mask_child
          (surface c (id_ ++ "_mask_surface_inner") b0 v_ true false false false) "black"] ∧
      std_map.find (surface c id_ s_ v_ true fs sc dt)._attribute_map "mask" =
        some (c.id_to_url (id_ ++ "_mask")) ∧
      (surface c id_ s_ v_ true fs sc dt)._attribute_map =
        std_map.assign
          (c.circle id_ origin2 s_._radii.2 s_._fill s_._stroke
            (shape_transform s_ fs))._attribute_map
          "mask" (c.id_to_url (id_ ++ "_mask")) := by
  have hfalse := surface_disc_planar_full_ring c id_ s_ v_ fs sc dt ht hd hv ha hr
  have htrue := surface_draw_boolean c id_ s_ v_ fs sc dt b0 ht hv hbs hop
  refine ⟨mask_object (id_ ++ "_mask") (stroke.of_sterile true)
      (mask_child
        (c.circle (id_ ++ "_mask_surface_outer") origin2 s_._radii.2 s_._fill s_._stroke
          (shape_transform s_ false)) "white")
      (mask_child
        (c.circle (id_ ++ "_mask_surface_inner") origin2 s_._radii.1 s_._fill s_._stroke
          (shape_transform s_ false)) "black"),
    mask_object (id_ ++ "_mask") s_._stroke
      (mask_child
        (surface c (id_ ++ "_mask_surface_outer") s_ v_ false false false false) "white")
      (mask_child
        (surface c (id_ ++ "_mask_surface_inner") b0 v_ true false false false) "black"),
    ?_, ?_, rfl, rfl, rfl, rfl, rfl, rfl, ?_, ?_⟩
  · rw [htrue, hfalse]
    simp [attach_mask, (hleaf.1 _ _ _ _ _ _).1]
  · rw [hfalse]
    simp [attach_mask, (hleaf.1 _ _ _ _ _ _).1]
  · rw [htrue]
    exact find_mask_attach_mask _ _ _ _
  · rw [htrue, hfalse]
    simp [attach_mask, std_map.assign_assign_same]

end fuel_facts

/-- C19, witness: the sample surface `nested` has nesting depth 2; the bound
4 on the call stack returns the value of `surface`, the bound 2 does not
suffice. -/
theorem C19_surface_terminates_witness :
    boolean_nesting sample.nested = 2 ∧
    surface_fuel sample.draw 4 "s" sample.nested sample.xy true false false false =
      some (surface sample.draw "s" sample.nested sample.xy true false false false) ∧
    surface_fuel sample.draw 2 "s" sample.nested sample.xy true false false false = none ∧
    surface_fuel sample.draw 2 "r" sample.ring sample.xy false false false false =
      some (surface sample.draw "r" sample.ring sample.xy false false false false) ∧
    boolean_nesting sample.nested_sub < boolean_nesting sample.nested :=
  ⟨rfl,
    (C19_surface_terminates sample.draw "s" sample.nested sample.xy true false false false).1 0,
    rfl,
    (C19_surface_terminates sample.draw "r" sample.ring sample.xy false false false
      false).2.1 0,
    (C19_surface_terminates sample.draw "s" sample.nested sample.xy true false false
      false).2.2.2 sample.nested_sub rfl⟩

/-- C20 (amended), witness: the sample ring with a subtraction subsurface
carries the two masks `r_mask` and `r_mask`. -/
theorem C20_two_masks_share_one_id_witness :
    (surface sample.draw "r" sample.ring_with_hole sample.xy true false false
      false)._definitions.map (fun m => (m._tag, m._id, m._sub_objects.length)) =
      [("mask", "r_mask", 2), ("mask", "r_mask", 2)] ∧
    std_map.find
      (surface sample.draw "r" sample.ring_with_hole sample.xy true false false
        false)._attribute_map "mask" = some "url(#r_mask)" ∧
    (surface sample.draw "r" sample.ring_with_hole sample.xy true false false
      false)._attribute_map = [("mask", "url(#r_mask)")] := by
  obtain ⟨rm, bm, hdefs, -, h1, h2, h3, h4, h5, h6, h7, h8⟩ :=
    C20_two_masks_share_one_id sample.draw sample_draw_leaf "r" sample.ring_with_hole
      sample.xy false false false sample.plain_surface rfl rfl rfl sample_ring_full
      sample_ring_nonzero rfl rfl
  refine ⟨?_, h7, ?_⟩
  · rw [hdefs]
    simp only [List.map_cons, List.map_nil, h1, h2, h3, h4, h5, h6, List.length_cons,
      List.length_nil]
    rfl
  · rw [h8]
    rfl

/-- C20, counterexample: the sample ring with a subtraction subsurface and a
defined template object is a full-opening disc with non-zero inner radius and
exactly one subtraction subsurface, but its render with `draw_boolean = true`
in the planar view is the instantiated template: it has no definitions and no
`mask` attribute. -/
theorem C20_counterexample_templated_ring :
    sample.ring_with_hole_templated._type = surface_type.e_disc ∧
    sub_arc sample.ring_with_hole_templated._opening = false ∧
    Scalar.nonzero sample.ring_with_hole_templated._radii.1 = true ∧
    sample.ring_with_hole_templated._boolean_surface.length = 1 ∧
    sample.ring_with_hole_templated._boolean_operation = boolean.e_subtraction ∧
    surface sample.draw "r" sample.ring_with_hole_templated sample.xy true false false false =
      sample.draw.from_template "r" sample.ring_with_hole_templated._template_object
        sample.ring_with_hole_templated._fill sample.ring_with_hole_templated._stroke
        (template_transform sample.ring_with_hole_templated false false) ∧
    (surface sample.draw "r" sample.ring_with_hole_templated sample.xy true false false
      false)._definitions = [] ∧
    std_map.find
      (surface sample.draw "r" sample.ring_with_hole_templated sample.xy true false false
        false)._attribute_map "mask" = none := by
  have h := surface_template sample.draw "r" sample.ring_with_hole_templated sample.xy
    true false false false rfl
  refine ⟨rfl, sample_ring_full, sample_ring_nonzero, rfl, rfl, h, ?_, ?_⟩
  · rw [h]
    rfl
  · rw [h]
    rfl

end display

/-! ## The eta lines -/

namespace display

open svg proto style

section fold_facts

variable {α σ : Type}

end fold_facts

section eta_facts

variable {α σ : Type} [Scalar α] [Inhabited σ]

end eta_facts

section eta_sample_facts

end eta_sample_facts

section eta_claims

variable {α σ : Type} [Scalar α] [Inhabited σ]

end eta_claims

end display

end actsvg
